import Mathlib

/-!
# Verification of the integrated site builder against its specification

A shallow embedding, in Lean 4, of the Python sources of the
`integrated-site-builder` repository, together with proofs and refutations of
the specification's claims about them.

Conventions of the embedding:

* Python strings are modelled as `List Char` where character-level reasoning
  is needed (template rendering, slug derivation) and as `String` elsewhere.
* Python's `str.replace` (left-to-right, non-overlapping substitution of every
  occurrence) is `pyReplace`.
* Parsed JSON documents are values of the inductive `Json`; Python's
  `dict.get(key, default)` on a parsed document is `dictGet` (total, on
  objects) and `pyGetE` (raising `AttributeError` on non-objects, as Python
  does when `.get` is called on a non-dict).
* An HTTP call made with `requests.get` is modelled by its outcome, a value of
  `Transport`: `.error e` is a raised transport exception, `.ok r` is a
  delivered response with a status code and a body whose JSON parse may itself
  fail (`r.body = .error _` models `response.json()` raising).
* `try/except` blocks are modelled with the `Except` monad: a Python function
  that cannot raise to its caller is embedded as a total Lean function.
* File writes (`save_file`, `mkdir`) are modelled as succeeding: the generated
  tree is returned as data instead of written to disk.  Wall-clock durations
  are modelled as `0`.
-/

/-- Recursion core of `pyReplace`, structurally recursive on a fuel argument
so that the kernel can evaluate it; `fuel ≥ s.length` always holds at every
call, so the `fuel = 0` branch is unreachable. -/
def pyReplaceGo (pat rep : List Char) : Nat → List Char → List Char
  | 0, s => s
  | _ + 1, [] => []
  | fuel + 1, c :: rest =>
    if pat ≠ [] ∧ pat.isPrefixOf (c :: rest) then
      rep ++ pyReplaceGo pat rep fuel ((c :: rest).drop pat.length)
    else
      c :: pyReplaceGo pat rep fuel rest

/-- `str.replace pat rep` on `List Char`: scans left to right, replacing each
non-overlapping occurrence of `pat`.  (Python's behaviour for an empty
pattern, inserting `rep` everywhere, never arises in this code base: every
pattern passed to `replace` here is non-empty, and for `pat = []` this
function is the identity.) -/
def pyReplace (pat rep : List Char) (s : List Char) : List Char :=
  pyReplaceGo pat rep s.length s

/-- Python's `str.lower`, modelled character by character with `Char.toLower`
(ASCII case mapping; adequate for every string this code base lowers). -/
def pyLower (s : List Char) : List Char := s.map Char.toLower

/-- Python's `str.isalnum` on one character (modelled by Lean's ASCII
`Char.isAlphanum`). -/
def pyIsAlnum (c : Char) : Bool := c.isAlphanum

/-- Python's `str.title`, modelled as: an alphabetic character is upper-cased
when the previous character was not alphabetic, lower-cased otherwise. -/
def pyTitleGo : Bool → List Char → List Char
  | _, [] => []
  | prevAlpha, c :: rest =>
    if c.isAlpha then
      (if prevAlpha then c.toLower else c.toUpper) :: pyTitleGo true rest
    else
      c :: pyTitleGo false rest

/-- Python's `str.title`. -/
def pyTitle (s : List Char) : List Char := pyTitleGo false s

/-- The placeholder token `"{{" + key + "}}"` built by `render_template`
(`shared/utils.py`, line 205). -/
def tok (key : List Char) : List Char := '{' :: '{' :: (key ++ ['}', '}'])

/-- A template context, as consumed by `render_template`
(`shared/utils.py`, lines 200-211).  Each entry is a key together with the
text its value renders to: the source applies `json.dumps(value, indent=2)`
to dict/list values and `str(value)` to all others before substituting, so
every Python value contributes some character sequence; the embedding
quantifies over that sequence directly. -/
abbrev Ctx := List (List Char × List Char)

/-- `render_template` (`shared/utils.py`, lines 200-211): for each key of the
context in order, replaces every occurrence of `{{key}}` by the value's
text.  Pure and total: the source performs no I/O and cannot raise. -/
def render_template (template_content : List Char) (vars : Ctx) : List Char :=
  vars.foldl
    (fun acc kv => pyReplace (tok kv.1) kv.2 acc)
    template_content

/-- The record returned by `format_brand_name` (`shared/utils.py`,
lines 93-112). -/
structure BrandFormat where
  original : List Char
  slug : List Char
  component : List Char
  display : List Char
  filename : List Char
deriving DecidableEq, Repr

/-- `format_brand_name` (`shared/utils.py`, lines 93-112): the slug is the
lower-cased name with spaces and underscores replaced by hyphens and every
character that is neither alphanumeric nor a hyphen removed. -/
def format_brand_name (brand_name : List Char) : BrandFormat :=
  let slug0 := pyReplace ['_'] ['-'] (pyReplace [' '] ['-'] (pyLower brand_name))
  let slug := slug0.filter (fun c => pyIsAlnum c || c == '-')
  let component :=
    pyReplace ['_'] [] (pyReplace ['-'] [] (pyReplace [' '] [] brand_name))
  { original := brand_name
    slug := slug
    component := component
    display := pyTitle brand_name
    filename := slug }

/-! ## JSON documents and Python dict operations -/

/-- A parsed JSON document, as returned by `response.json()`.  Numbers are
modelled as integers: every numeric field this code base reads (`count`) is
an integer in the server's contract. -/
inductive Json where
  | null : Json
  | bool (b : Bool) : Json
  | num (n : Int) : Json
  | str (s : String) : Json
  | arr (xs : List Json) : Json
  | obj (fields : List (String × Json)) : Json

/-- `d.get(key, default)` on a parsed JSON object `d` (first matching key;
parsed JSON objects have unique keys).  Total: only applied to values known
to be objects. -/
def dictGet (j : Json) (key : String) (dflt : Json) : Json :=
  match j with
  | .obj fields =>
    match fields.find? (fun kv => kv.1 == key) with
    | some kv => kv.2
    | none => dflt
  | _ => dflt

/-- `x.get(key, default)` where `x` may be any parsed JSON value: Python
raises `AttributeError` when `x` is not a dict. -/
def pyGetE (j : Json) (key : String) (dflt : Json) : Except String Json :=
  match j with
  | .obj _ => .ok (dictGet j key dflt)
  | _ => .error "AttributeError: .get on non-dict"

/-- `x[key]` subscription on a parsed JSON value: `KeyError` when the key is
absent, `TypeError` when `x` is not a dict. -/
def pySub (j : Json) (key : String) : Except String Json :=
  match j with
  | .obj fields =>
    match fields.find? (fun kv => kv.1 == key) with
    | some kv => .ok kv.2
    | none => .error ("KeyError: " ++ key)
  | _ => .error "TypeError: not subscriptable"

/-- `x[:n]` slicing: defined on lists and strings, `TypeError` otherwise. -/
def pySlice (j : Json) (n : Nat) : Except String Json :=
  match j with
  | .arr xs => .ok (.arr (xs.take n))
  | .str s => .ok (.str (String.mk (s.toList.take n)))
  | _ => .error "TypeError: not subscriptable"

/-- `len(x)`: defined on lists, strings and dicts, `TypeError` otherwise. -/
def pyLen (j : Json) : Except String Nat :=
  match j with
  | .arr xs => .ok xs.length
  | .str s => .ok s.length
  | .obj fields => .ok fields.length
  | _ => .error "TypeError: no len()"

/-- `x[0]` indexing: first element of a list or string (`IndexError` when
empty); `KeyError` on a dict (these dicts have no integer keys); `TypeError`
otherwise. -/
def pyIndex0 (j : Json) : Except String Json :=
  match j with
  | .arr (x :: _) => .ok x
  | .arr [] => .error "IndexError: list index out of range"
  | .str s =>
    match s.toList with
    | c :: _ => .ok (.str (String.mk [c]))
    | [] => .error "IndexError: string index out of range"
  | .obj _ => .error "KeyError: 0"
  | _ => .error "TypeError: not subscriptable"

/-- Whether `x == 0` in Python (`False == 0` and `0 == 0` hold; everything
else this code compares is unequal to `0`). -/
def pyEqZero (j : Json) : Bool :=
  match j with
  | .num 0 => true
  | .bool false => true
  | _ => false

/-- A single quote character, used by `pyRepr`. -/
def quoteChar : String := String.mk [Char.ofNat 39]

mutual

/-- Python's `str`/`repr` of a parsed JSON value (a list renders as a
bracketed comma-separated sequence with quoted strings, a dict as a braced
one, `None`/`True`/`False` for the atoms).  Embedded quotes inside strings
are not escaped: no string this development evaluates `pyRepr` on contains
a quote. -/
def pyRepr : Json → String
  | .null => "None"
  | .bool true => "True"
  | .bool false => "False"
  | .num n => toString n
  | .str s => quoteChar ++ s ++ quoteChar
  | .arr xs => "[" ++ pyReprList xs ++ "]"
  | .obj fields => "\x7b" ++ pyReprObj fields ++ "\x7d"

/-- Comma-separated `pyRepr` of the elements of a list. -/
def pyReprList : List Json → String
  | [] => ""
  | [x] => pyRepr x
  | x :: y :: xs => pyRepr x ++ ", " ++ pyReprList (y :: xs)

/-- Comma-separated quoted-key colon value renderings of a dict's fields. -/
def pyReprObj : List (String × Json) → String
  | [] => ""
  | [kv] => quoteChar ++ kv.1 ++ quoteChar ++ ": " ++ pyRepr kv.2
  | kv :: kw :: xs =>
    quoteChar ++ kv.1 ++ quoteChar ++ ": " ++ pyRepr kv.2 ++ ", " ++ pyReprObj (kw :: xs)

end

/-- Python's `str(x)`: the string itself for a string, `pyRepr` otherwise
(matching `str` on containers and atoms). -/
def pyStr (j : Json) : String :=
  match j with
  | .str s => s
  | _ => pyRepr j

/-- Whether every element of a list of JSON values is a string; returns the
strings. -/
def allStrings : List Json → Option (List String)
  | [] => some []
  | .str s :: rest => (allStrings rest).map (fun ss => s :: ss)
  | _ => none

/-- `sep.join(x)`: defined on a list whose elements are all strings (joined
with the separator) and on a string (its characters joined); `TypeError`
otherwise. -/
def pyJoin (sep : String) (j : Json) : Except String String :=
  match j with
  | .arr xs =>
    match allStrings xs with
    | some ss => .ok (String.intercalate sep ss)
    | none => .error "TypeError: join of non-string sequence"
  | .str s => .ok (String.intercalate sep (s.toList.map (fun c => String.mk [c])))
  | _ => .error "TypeError: not iterable"

/-- Substring test, Python's `sub in s`. -/
def strContains (s sub : String) : Bool :=
  decide (sub.toList <:+: s.toList)

/-- `s.lower()` on a `String`. -/
def pyLowerS (s : String) : String := String.mk (pyLower s.toList)
/-! ## The server status checker (`shared/config.py`, `quick_deploy.py`) -/

/-- One delivered HTTP response: its status code, and the outcome of parsing
its body as JSON (`response.json()` raises on a malformed body, modelled by
`.error`). -/
structure Resp where
  status : Nat
  body : Except String Json

/-- The outcome of one `requests.get` call: either a raised transport
exception (timeout, connection error) or a delivered response. -/
abbrev Transport := Except String Resp

/-- The record built by `get_server_status` (`shared/config.py`,
lines 114-153).  The success dictionary carries `healthy`, `products_count`,
`available_sites`, `url`, `last_checked`; the exception dictionary carries
`healthy = False`, `error`, `url`, `last_checked`.  A field absent from the
returned dictionary is `none`. -/
structure ServerStatus where
  healthy : Bool
  products_count : Option Json
  available_sites : Option Json
  error : Option String
  url : String
  last_checked : String

/-- The products leg of `get_server_status` (`shared/config.py`, lines
124-129): on a 200 the body is parsed (a parse failure raises) and
`products_count` is its `count` field with default `0`; on any other status
`products_count` is `0`. -/
def productsCountOf (p : Resp) : Except String Json :=
  if p.status == 200 then do
    let products_data ← p.body
    pyGetE products_data "count" (.num 0)
  else
    pure (Json.num 0)

/-- The sites leg of `get_server_status` (`shared/config.py`, lines 132-137):
on a 200 the body is parsed and `available_sites` is its `sites` field with
default `[]`; on any other status it is `[]`. -/
def availableSitesOf (s : Resp) : Except String Json :=
  if s.status == 200 then do
    let sites_data ← s.body
    pyGetE sites_data "sites" (.arr [])
  else
    pure (Json.arr [])

/-- The body of `get_server_status`'s `try` block: health, products and sites
calls in order; any transport error or body-parse error propagates as the
exception the `except` clause catches. -/
def serverStatusChecks (health products sites : Transport) :
    Except String (Bool × Json × Json) := do
  let h ← health
  let health_status := h.status == 200
  let p ← products
  let products_count ← productsCountOf p
  let s ← sites
  let available_sites ← availableSitesOf s
  pure (health_status, products_count, available_sites)

/-- `get_server_status` (`shared/config.py`, lines 114-153): wraps the three
GET calls in `try/except`; the `except` branch returns a dictionary with
`healthy = False` and the error string, without `products_count` or
`available_sites`.  Total in the embedding: the source never raises to its
caller. -/
def get_server_status (gcs_url : String) (health products sites : Transport) :
    ServerStatus :=
  match serverStatusChecks health products sites with
  | .ok (health_status, products_count, available_sites) =>
    { healthy := health_status
      products_count := some products_count
      available_sites := some available_sites
      error := none
      url := gcs_url
      last_checked := "now" }
  | .error e =>
    { healthy := false
      products_count := none
      available_sites := none
      error := some e
      url := gcs_url
      last_checked := "now" }

/-- The fixed list of expected product sources checked by
`validate_existing_server` (`shared/config.py`, line 168). -/
def expected_sources : List String := ["amazon", "cabelas"]

/-- `validate_existing_server` (`shared/config.py`, lines 156-179).  Returns
`none` when the source would raise an uncaught `TypeError` (comparing a
non-integer `products_count` with `1`); otherwise `some` of the boolean the
source returns. -/
def validate_existing_server (gcs_url : String) (health products sites : Transport) :
    Option Bool :=
  let status := get_server_status gcs_url health products sites
  if status.healthy = false then
    some false
  else
    match status.products_count, status.available_sites with
    | some (.num n), some available_sites =>
      if n < 1 then
        some false
      else
        some (expected_sources.any (fun source =>
          strContains (pyLowerS (pyRepr available_sites)) source))
    | some _, some _ => none
    | _, _ => none

/-- The record built by `check_server_status` (`quick_deploy.py`,
lines 16-45): `success`, an `error` string on failure, and on success the
product count and the first three sample products. -/
structure QDStatus where
  success : Bool
  error : Option String
  products_count : Option Json
  sample_products : Option Json

/-- The body of `check_server_status`'s `try` block; `throw` carries both the
inner failure returns' error strings and caught exceptions, and the wrapper
below maps both onto `success = False` records, exactly as the source's
early returns and its `except` clause do. -/
def checkServerStatusBody (health products : Transport) :
    Except String (Json × Json) := do
  let h ← health
  if h.status ≠ 200 then
    throw ("Health check failed: " ++ toString h.status)
  else do
    let p ← products
    if p.status ≠ 200 then
      throw ("Products API failed: " ++ toString p.status)
    else do
      let data ← p.body
      let products_count ← pyGetE data "count" (.num 0)
      if pyEqZero products_count then
        throw "No products found on server"
      else do
        let productsVal ← pyGetE data "products" (.arr [])
        let sample ← pySlice productsVal 3
        pure (products_count, sample)

/-- `check_server_status` (`quick_deploy.py`, lines 16-45): never raises; on
any transport error, non-200 status, malformed body or zero count it returns
`success = False` with an error string. -/
def check_server_status (health products : Transport) : QDStatus :=
  match checkServerStatusBody health products with
  | .ok (products_count, sample) =>
    { success := true
      error := none
      products_count := some products_count
      sample_products := some sample }
  | .error e =>
    { success := false
      error := some e
      products_count := none
      sample_products := none }
/-! ## The site generator (`site-integration/generator_agent.py`)

NOTE on the source module: `generator_agent.py` is not importable Python.
Several f-string templates interpolate raw JSX — a template literal at line
440 and JSX comments such as the logo marker in the navigation component —
whose brace spans are not valid Python expressions, so the module raises
`SyntaxError` on import (checked against the committed file: the first error
is at line 440).  The embedding below reads each such span as the literal
JSX output text that the surrounding brace-escaping convention intends, and
the claims about this module are settled against that evident semantics;
the import-time failure itself is recorded with the claims it decides. -/

/-! Python's `json.dumps` on a parsed JSON value.  The pretty-printing
whitespace of the source's `indent=2/4/6` arguments is elided: no claim
depends on the serialized text, only on which value is serialized.  Embedded
quotes are not escaped (none of the serialized values here contain any). -/
mutual

/-- `json.dumps` of one value (whitespace of `indent=` elided). -/
def jsonDumps : Json → String
  | .null => "null"
  | .bool true => "true"
  | .bool false => "false"
  | .num n => toString n
  | .str s => "\"" ++ s ++ "\""
  | .arr xs => "[" ++ jsonDumpsList xs ++ "]"
  | .obj fields => "\x7b" ++ jsonDumpsObj fields ++ "\x7d"

/-- Comma-separated `jsonDumps` of a list's elements. -/
def jsonDumpsList : List Json → String
  | [] => ""
  | [x] => jsonDumps x
  | x :: y :: xs => jsonDumps x ++ ", " ++ jsonDumpsList (y :: xs)

/-- Comma-separated quoted-key colon value serializations of a dict. -/
def jsonDumpsObj : List (String × Json) → String
  | [] => ""
  | [kv] => "\"" ++ kv.1 ++ "\": " ++ jsonDumps kv.2
  | kv :: kw :: xs =>
    "\"" ++ kv.1 ++ "\": " ++ jsonDumps kv.2 ++ ", " ++ jsonDumpsObj (kw :: xs)

end

/-- The `template_vars` dictionary built by `_generate_website_files`
(`generator_agent.py`, lines 153-163): brand name and slug, the API base
URL, the loaded niche configuration, the first six sample products, the
server's total product count, the generation timestamp, and the
configuration's colour scheme and content strategy.  All nine keys are
always present, so the dictionary is embedded as a structure. -/
structure TemplateVars where
  brand_name : String
  brand_slug : String
  api_url : String
  niche_config : Json
  sample_products : Json
  total_products : Json
  generated_at : String
  color_scheme : Json
  content_strategy : Json

/-- Line 383 of `generator_agent.py`:
`len(template_vars.get("sample_products", []))`, the `count` field of the
fallback payload embedded in the generated API route. -/
def _apiRouteFallbackCount (vars : TemplateVars) : Except String Nat :=
  pyLen vars.sample_products

/-- Line 384 of `generator_agent.py`:
`template_vars.get("sample_products", [])[:3]`, the `products` array of the
fallback payload embedded in the generated API route. -/
def _apiRouteFallbackProducts (vars : TemplateVars) : Except String Json :=
  pySlice vars.sample_products 3
/-! ## The per-file template generators (`generator_agent.py`)

Each `_create_*` function below is the corresponding source function:
its literal template text is carried verbatim (braces written as
escapes), its interpolations are evaluated in the source's textual
order, and every partial Python operation inside an interpolation is a
bind in `Except String`. -/

/-- `_create_index_page` (`generator_agent.py`, lines 262-341): the home page.  Partial: indexing `[0]` into a configured headline list raises on an empty list, and `.get` on a non-dict content strategy or SEO section raises `AttributeError`; both propagate to `generate_affiliate_site`'s `except`. -/
def _create_index_page (vars : TemplateVars) : Except String String := do
  let content_strategy := vars.content_strategy
  let hh1 ← pyIndex0 (← pyGetE content_strategy "hero_headlines" (Json.arr [Json.str "Quality Outdoor Gear"]))
  let seo ← pyGetE vars.niche_config "seo_optimization" (Json.obj [])
  let meta ← pyGetE seo "meta_description" (Json.str "")
  let hh2 ← pyIndex0 (← pyGetE content_strategy "hero_headlines" (Json.arr [Json.str "Gear Up for Adventure"]))
  let vp ← pyIndex0 (← pyGetE content_strategy "value_propositions" (Json.arr [Json.str "Quality gear at great prices"]))
  let cta ← pyIndex0 (← pyGetE content_strategy "primary_ctas" (Json.arr [Json.str "Shop Now"]))
  pure ("import Head from 'next/head'\nimport \x7b useState, useEffect \x7d from 'react'\nimport Navigation from '../components/Navigation'\nimport Hero from '../components/Hero'\nimport ProductGrid from '../components/ProductGrid'\nimport Footer from '../components/Footer'\n\nexport default function Home() \x7b\n  const [products, setProducts] = useState([])\n  const [loading, setLoading] = useState(true)\n  const [error, setError] = useState(null)\n\n  useEffect(() => \x7b\n    fetchProducts()\n  \x7d, [])\n\n  const fetchProducts = async () => \x7b\n    try \x7b\n      const response = await fetch('/api/products')\n      if (!response.ok) \x7b\n        throw new Error('Failed to fetch products')\n      \x7d\n      const data = await response.json()\n      setProducts(data.products || [])\n    \x7d catch (err) \x7b\n      setError(err.message)\n      console.error('Error fetching products:', err)\n    \x7d finally \x7b\n      setLoading(false)\n    \x7d\n  \x7d\n\n  return (\n    <div className=\"min-h-screen bg-gray-50\">\n      <Head>\n        <title>"
    ++ (vars.brand_name)
    ++ " - "
    ++ (pyStr hh1)
    ++ "</title>\n        <meta name=\"description\" content=\""
    ++ (pyStr meta)
    ++ "\" />\n        <meta name=\"viewport\" content=\"width=device-width, initial-scale=1\" />\n        <link rel=\"icon\" href=\"/favicon.ico\" />\n      </Head>\n\n      <Navigation brandName=\""
    ++ (vars.brand_name)
    ++ "\" />\n      \n      <Hero \n        headline=\""
    ++ (pyStr hh2)
    ++ "\"\n        subtitle=\""
    ++ (pyStr vp)
    ++ "\"\n        ctaText=\""
    ++ (pyStr cta)
    ++ "\"\n      />\n\n      <main className=\"container mx-auto px-4 py-8\">\n        \x7bloading ? (\n          <div className=\"text-center py-12\">\n            <div className=\"animate-spin rounded-full h-12 w-12 border-b-2 border-green-600 mx-auto\"></div>\n            <p className=\"mt-4 text-gray-600\">Loading amazing outdoor gear...</p>\n          </div>\n        ) : error ? (\n          <div className=\"text-center py-12\">\n            <p className=\"text-red-600\">Error loading products: \x7berror\x7d</p>\n            <button \n              onClick=\x7bfetchProducts\x7d\n              className=\"mt-4 px-6 py-2 bg-green-600 text-white rounded hover:bg-green-700\"\n            >\n              Try Again\n            </button>\n          </div>\n        ) : (\n          <ProductGrid products=\x7bproducts\x7d />\n        )\x7d\n      </main>\n\n      <Footer />\n    </div>\n  )\n\x7d")

/-- `_create_api_route` (`generator_agent.py`, lines 343-392): the serverless proxy for `GET /api/products`.  The embedded fallback payload declares `count` as the number of sample products in the context while embedding only the first three of them (`[:3]`).  `_apiRouteFallbackCount` and `_apiRouteFallbackProducts` below name those two interpolated values. -/
def _create_api_route (vars : TemplateVars) : Except String String := do
  let n ← _apiRouteFallbackCount vars
  let p3 ← _apiRouteFallbackProducts vars
  pure ("// API route to fetch products from the GCS server\nexport default async function handler(req, res) \x7b\n  if (req.method !== 'GET') \x7b\n    return res.status(405).json(\x7b error: 'Method not allowed' \x7d)\n  \x7d\n\n  try \x7b\n    const apiUrl = process.env.SCRAPER_API_URL || '"
    ++ (vars.api_url)
    ++ "'\n    \n    const response = await fetch(`$\x7bapiUrl\x7d/products`, \x7b\n      headers: \x7b\n        'Accept': 'application/json',\n      \x7d,\n      timeout: 10000\n    \x7d)\n\n    if (!response.ok) \x7b\n      throw new Error(`API responded with status: $\x7bresponse.status\x7d`)\n    \x7d\n\n    const data = await response.json()\n    \n    // Ensure we have the expected structure\n    if (!data.products || !Array.isArray(data.products)) \x7b\n      throw new Error('Invalid data structure from API')\n    \x7d\n\n    // Add timestamp for debugging\n    data.fetched_at = new Date().toISOString()\n    data.source = 'live-api'\n\n    res.status(200).json(data)\n  \x7d catch (error) \x7b\n    console.error('Error fetching from GCS server:', error)\n    \n    // Fallback to sample data\n    const fallbackData = \x7b\n      count: "
    ++ (toString n)
    ++ ",\n      products: "
    ++ (jsonDumps p3)
    ++ ",\n      source: 'fallback',\n      error: error.message,\n      fetched_at: new Date().toISOString()\n    \x7d\n    \n    res.status(200).json(fallbackData)\n  \x7d\n\x7d")

/-- `_create_category_page` (`generator_agent.py`, lines 394-473): the category page template.  Total: interpolates only the brand name.  NOTE: at source line 440 the template holds a JSX template literal whose outer braces are not doubled, which makes the whole module an invalid Python f-string (SyntaxError on import); the embedding reads that span as the literal JSX text the surrounding escaping convention intends. -/
def _create_category_page (vars : TemplateVars) : String :=
  "import \x7b useRouter \x7d from 'next/router'\nimport \x7b useState, useEffect \x7d from 'react'\nimport Head from 'next/head'\nimport Navigation from '../../components/Navigation'\nimport ProductGrid from '../../components/ProductGrid'\nimport Footer from '../../components/Footer'\n\nexport default function CategoryPage() \x7b\n  const router = useRouter()\n  const \x7b slug \x7d = router.query\n  const [products, setProducts] = useState([])\n  const [loading, setLoading] = useState(true)\n  const [categoryName, setCategoryName] = useState('')\n\n  useEffect(() => \x7b\n    if (slug) \x7b\n      fetchCategoryProducts(slug)\n    \x7d\n  \x7d, [slug])\n\n  const fetchCategoryProducts = async (category) => \x7b\n    try \x7b\n      const response = await fetch('/api/products')\n      const data = await response.json()\n      \n      // Filter products by category (basic implementation)\n      const filteredProducts = data.products.filter(product => \n        product.category && product.category.toLowerCase().includes(category.toLowerCase())\n      )\n      \n      setProducts(filteredProducts)\n      setCategoryName(category.replace('-', ' ').toUpperCase())\n    \x7d catch (error) \x7b\n      console.error('Error fetching category products:', error)\n    \x7d finally \x7b\n      setLoading(false)\n    \x7d\n  \x7d\n\n  return (\n    <div className=\"min-h-screen bg-gray-50\">\n      <Head>\n        <title>\x7bcategoryName\x7d - "
    ++ (vars.brand_name)
    ++ "</title>\n        <meta name=\"description\" content=\x7b`Best \x7bcategoryName.toLowerCase()\x7d gear and equipment`\x7d />\n      </Head>\n\n      <Navigation brandName=\""
    ++ (vars.brand_name)
    ++ "\" />\n\n      <div className=\"bg-green-800 text-white py-12\">\n        <div className=\"container mx-auto px-4\">\n          <h1 className=\"text-4xl font-bold\">\x7bcategoryName\x7d</h1>\n          <p className=\"text-xl mt-2\">Discover the best gear for your adventures</p>\n        </div>\n      </div>\n\n      <main className=\"container mx-auto px-4 py-8\">\n        \x7bloading ? (\n          <div className=\"text-center py-12\">\n            <div className=\"animate-spin rounded-full h-12 w-12 border-b-2 border-green-600 mx-auto\"></div>\n            <p className=\"mt-4 text-gray-600\">Loading \x7bcategoryName.toLowerCase()\x7d products...</p>\n          </div>\n        ) : (\n          <>\n            <div className=\"mb-6\">\n              <h2 className=\"text-2xl font-semibold text-gray-800\">\n                \x7bproducts.length\x7d \x7bcategoryName\x7d Products Found\n              </h2>\n            </div>\n            <ProductGrid products=\x7bproducts\x7d />\n          </>\n        )\x7d\n      </main>\n\n      <Footer />\n    </div>\n  )\n\x7d"

/-- `_create_navigation_component` (`generator_agent.py`, lines 513-588).  Partial: `.get` on a non-dict `site_config` raises. -/
def _create_navigation_component (vars : TemplateVars) : Except String String := do
  let site_config ← pyGetE vars.niche_config "site_config" (Json.obj [])
  let categories ← pyGetE site_config "primary_categories" (Json.arr [])
  pure ("import \x7b useState \x7d from 'react'\nimport Link from 'next/link'\n\nexport default function Navigation(\x7b brandName \x7d) \x7b\n  const [isOpen, setIsOpen] = useState(false)\n\n  const categories = "
    ++ (jsonDumps categories)
    ++ "\n\n  return (\n    <nav className=\"bg-green-800 text-white shadow-lg\">\n      <div className=\"container mx-auto px-4\">\n        <div className=\"flex justify-between items-center py-4\">\n          \x7b/* Logo */\x7d\n          <Link href=\"/\" className=\"text-2xl font-bold hover:text-green-200\">\n            \x7bbrandName\x7d\n          </Link>\n\n          \x7b/* Desktop Menu */\x7d\n          <div className=\"hidden md:flex space-x-6\">\n            <Link href=\"/\" className=\"hover:text-green-200\">\n              Home\n            </Link>\n            \x7bcategories.map((category, index) => (\n              <Link \n                key=\x7bindex\x7d\n                href=\x7b`/category/$\x7bcategory\x7d`\x7d\n                className=\"hover:text-green-200 capitalize\"\n              >\n                \x7bcategory.replace('-', ' ')\x7d\n              </Link>\n            ))\x7d\n            <Link href=\"/deals\" className=\"hover:text-green-200\">\n              Deals\n            </Link>\n          </div>\n\n          \x7b/* Mobile Menu Button */\x7d\n          <button\n            className=\"md:hidden\"\n            onClick=\x7b() => setIsOpen(!isOpen)\x7d\n          >\n            <svg className=\"w-6 h-6\" fill=\"none\" stroke=\"currentColor\" viewBox=\"0 0 24 24\">\n              <path strokeLinecap=\"round\" strokeLinejoin=\"round\" strokeWidth=\x7b2\x7d d=\"M4 6h16M4 12h16M4 18h16\" />\n            </svg>\n          </button>\n        </div>\n\n        \x7b/* Mobile Menu */\x7d\n        \x7bisOpen && (\n          <div className=\"md:hidden py-4 border-t border-green-700\">\n            <Link href=\"/\" className=\"block py-2 hover:text-green-200\">\n              Home\n            </Link>\n            \x7bcategories.map((category, index) => (\n              <Link \n                key=\x7bindex\x7d\n                href=\x7b`/category/$\x7bcategory\x7d`\x7d\n                className=\"block py-2 hover:text-green-200 capitalize\"\n              >\n                \x7bcategory.replace('-', ' ')\x7d\n              </Link>\n            ))\x7d\n            <Link href=\"/deals\" className=\"block py-2 hover:text-green-200\">\n              Deals\n            </Link>\n          </div>\n        )\x7d\n      </div>\n    </nav>\n  )\n\x7d")

/-- `_create_hero_component` (`generator_agent.py`, lines 590-609): a fixed string. -/
def _create_hero_component (_vars : TemplateVars) : String :=
  "export default function Hero(\x7b headline, subtitle, ctaText \x7d) \x7b\n  return (\n    <div className=\"bg-gradient-to-r from-green-800 to-green-600 text-white py-20\">\n      <div className=\"container mx-auto px-4 text-center\">\n        <h1 className=\"text-5xl md:text-6xl font-bold mb-6\">\n          \x7bheadline\x7d\n        </h1>\n        <p className=\"text-xl md:text-2xl mb-8 max-w-3xl mx-auto\">\n          \x7bsubtitle\x7d\n        </p>\n        <button className=\"bg-orange-500 hover:bg-orange-600 text-white px-8 py-4 rounded-lg text-lg font-semibold transition-colors\">\n          \x7bctaText\x7d\n        </button>\n      </div>\n    </div>\n  )\n\x7d"

/-- `_create_product_grid_component` (`generator_agent.py`, lines 611-633): a fixed string. -/
def _create_product_grid_component (_vars : TemplateVars) : String :=
  "import ProductCard from './ProductCard'\n\nexport default function ProductGrid(\x7b products \x7d) \x7b\n  if (!products || products.length === 0) \x7b\n    return (\n      <div className=\"text-center py-12\">\n        <h2 className=\"text-2xl font-semibold text-gray-600 mb-4\">No products available</h2>\n        <p className=\"text-gray-500\">Check back soon for amazing outdoor gear deals!</p>\n      </div>\n    )\n  \x7d\n\n  return (\n    <div className=\"grid grid-cols-1 md:grid-cols-2 lg:grid-cols-3 xl:grid-cols-4 gap-6\">\n      \x7bproducts.map((product, index) => (\n        <ProductCard key=\x7bproduct.id || index\x7d product=\x7bproduct\x7d />\n      ))\x7d\n    </div>\n  )\n\x7d"

/-- `_create_product_card_component` (`generator_agent.py`, lines 635-726): a fixed string. -/
def _create_product_card_component (_vars : TemplateVars) : String :=
  "export default function ProductCard(\x7b product \x7d) \x7b\n  const \x7b\n    name = 'Product Name',\n    description = 'Product description',\n    price = '0.00',\n    image_url = '/placeholder-product.jpg',\n    affiliate_url = '#',\n    rating = 0,\n    review_count = 0\n  \x7d = product\n\n  const formatPrice = (price) => \x7b\n    if (typeof price === 'number') return `$$\x7bprice.toFixed(2)\x7d`\n    if (typeof price === 'string') \x7b\n      const cleaned = price.replace(/[^0-9.]/g, '')\n      const num = parseFloat(cleaned)\n      return isNaN(num) ? price : `$$\x7bnum.toFixed(2)\x7d`\n    \x7d\n    return '$0.00'\n  \x7d\n\n  const truncateText = (text, maxLength = 100) => \x7b\n    if (!text) return ''\n    return text.length > maxLength ? text.substring(0, maxLength) + '...' : text\n  \x7d\n\n  return (\n    <div className=\"bg-white rounded-lg shadow-md hover:shadow-lg transition-shadow overflow-hidden\">\n      \x7b/* Product Image */\x7d\n      <div className=\"aspect-w-1 aspect-h-1 w-full h-48 bg-gray-200\">\n        <img\n          src=\x7bimage_url\x7d\n          alt=\x7bname\x7d\n          className=\"w-full h-full object-cover\"\n          onError=\x7b(e) => \x7b\n            e.target.src = '/placeholder-product.jpg'\n          \x7d\x7d\n        />\n      </div>\n\n      \x7b/* Product Info */\x7d\n      <div className=\"p-4\">\n        <h3 className=\"text-lg font-semibold text-gray-800 mb-2 line-clamp-2\">\n          \x7bname\x7d\n        </h3>\n        \n        <p className=\"text-gray-600 text-sm mb-3 line-clamp-3\">\n          \x7btruncateText(description)\x7d\n        </p>\n\n        \x7b/* Rating */\x7d\n        \x7brating > 0 && (\n          <div className=\"flex items-center mb-2\">\n            <div className=\"flex items-center\">\n              \x7b[...Array(5)].map((_, i) => (\n                <svg\n                  key=\x7bi\x7d\n                  className=\x7b`w-4 h-4 $\x7bi < Math.floor(rating) ? 'text-yellow-400' : 'text-gray-300'\x7d`\x7d\n                  fill=\"currentColor\"\n                  viewBox=\"0 0 20 20\"\n                >\n                  <path d=\"M9.049 2.927c.3-.921 1.603-.921 1.902 0l1.07 3.292a1 1 0 00.95.69h3.462c.969 0 1.371 1.24.588 1.81l-2.8 2.034a1 1 0 00-.364 1.118l1.07 3.292c.3.921-.755 1.688-1.54 1.118l-2.8-2.034a1 1 0 00-1.175 0l-2.8 2.034c-.784.57-1.838-.197-1.539-1.118l1.07-3.292a1 1 0 00-.364-1.118L2.98 8.72c-.783-.57-.38-1.81.588-1.81h3.461a1 1 0 00.951-.69l1.07-3.292z\" />\n                </svg>\n              ))\x7d\n            </div>\n            \x7breview_count > 0 && (\n              <span className=\"text-sm text-gray-500 ml-2\">(\x7breview_count\x7d)</span>\n            )\x7d\n          </div>\n        )\x7d\n\n        \x7b/* Price and CTA */\x7d\n        <div className=\"flex items-center justify-between\">\n          <span className=\"text-2xl font-bold text-green-600\">\n            \x7bformatPrice(price)\x7d\n          </span>\n          <a\n            href=\x7baffiliate_url\x7d\n            target=\"_blank\"\n            rel=\"noopener noreferrer\"\n            className=\"bg-orange-500 hover:bg-orange-600 text-white px-4 py-2 rounded text-sm font-medium transition-colors\"\n          >\n            Shop Now\n          </a>\n        </div>\n      </div>\n    </div>\n  )\n\x7d"

/-- `_create_footer_component` (`generator_agent.py`, lines 728-792). -/
def _create_footer_component (vars : TemplateVars) : String :=
  "export default function Footer() \x7b\n  return (\n    <footer className=\"bg-gray-800 text-white py-12\">\n      <div className=\"container mx-auto px-4\">\n        <div className=\"grid grid-cols-1 md:grid-cols-4 gap-8\">\n          \x7b/* Brand */\x7d\n          <div>\n            <h3 className=\"text-xl font-bold mb-4\">"
    ++ (vars.brand_name)
    ++ "</h3>\n            <p className=\"text-gray-300\">\n              Your trusted source for outdoor adventure gear. Find the best equipment for hiking, camping, and exploring the great outdoors.\n            </p>\n          </div>\n\n          \x7b/* Categories */\x7d\n          <div>\n            <h4 className=\"text-lg font-semibold mb-4\">Categories</h4>\n            <ul className=\"space-y-2 text-gray-300\">\n              <li><a href=\"/category/hiking-gear\" className=\"hover:text-white\">Hiking Gear</a></li>\n              <li><a href=\"/category/camping-equipment\" className=\"hover:text-white\">Camping Equipment</a></li>\n              <li><a href=\"/category/outdoor-clothing\" className=\"hover:text-white\">Outdoor Clothing</a></li>\n              <li><a href=\"/category/safety-gear\" className=\"hover:text-white\">Safety Gear</a></li>\n            </ul>\n          </div>\n\n          \x7b/* Support */\x7d\n          <div>\n            <h4 className=\"text-lg font-semibold mb-4\">Support</h4>\n            <ul className=\"space-y-2 text-gray-300\">\n              <li><a href=\"/contact\" className=\"hover:text-white\">Contact Us</a></li>\n              <li><a href=\"/shipping\" className=\"hover:text-white\">Shipping Info</a></li>\n              <li><a href=\"/returns\" className=\"hover:text-white\">Returns</a></li>\n              <li><a href=\"/faq\" className=\"hover:text-white\">FAQ</a></li>\n            </ul>\n          </div>\n\n          \x7b/* Newsletter */\x7d\n          <div>\n            <h4 className=\"text-lg font-semibold mb-4\">Stay Updated</h4>\n            <p className=\"text-gray-300 mb-4\">Get the latest deals and outdoor tips</p>\n            <div className=\"flex\">\n              <input\n                type=\"email\"\n                placeholder=\"Your email\"\n                className=\"flex-1 px-3 py-2 text-gray-800 rounded-l\"\n              />\n              <button className=\"bg-green-600 hover:bg-green-700 px-4 py-2 rounded-r\">\n                Subscribe\n              </button>\n            </div>\n          </div>\n        </div>\n\n        <div className=\"border-t border-gray-700 mt-8 pt-8 text-center text-gray-300\">\n          <p>&copy; 2024 "
    ++ (vars.brand_name)
    ++ ". All rights reserved.</p>\n          <p className=\"mt-2 text-sm\">\n            We may earn a commission from purchases made through our affiliate links.\n          </p>\n        </div>\n      </div>\n    </footer>\n  )\n\x7d"

/-- `_create_global_css` (`generator_agent.py`, lines 820-895).  Partial: `.get` on a non-dict colour scheme raises. -/
def _create_global_css (vars : TemplateVars) : Except String String := do
  let color_scheme := vars.color_scheme
  let cP ← pyGetE color_scheme "primary" (Json.str "#2D5016")
  let cS ← pyGetE color_scheme "secondary" (Json.str "#8FBC8F")
  let cA ← pyGetE color_scheme "accent" (Json.str "#F4A460")
  let cB ← pyGetE color_scheme "background" (Json.str "#F5F5DC")
  pure ("@tailwind base;\n@tailwind components;\n@tailwind utilities;\n\n:root \x7b\n  --color-primary: "
    ++ (pyStr cP)
    ++ ";\n  --color-secondary: "
    ++ (pyStr cS)
    ++ ";\n  --color-accent: "
    ++ (pyStr cA)
    ++ ";\n  --color-background: "
    ++ (pyStr cB)
    ++ ";\n\x7d\n\nbody \x7b\n  font-family: 'Open Sans', sans-serif;\n  line-height: 1.6;\n  color: #2F4F2F;\n\x7d\n\nh1, h2, h3, h4, h5, h6 \x7b\n  font-family: 'Montserrat', sans-serif;\n  font-weight: 600;\n\x7d\n\n.btn-primary \x7b\n  @apply bg-green-600 hover:bg-green-700 text-white px-6 py-3 rounded-lg font-semibold transition-colors;\n\x7d\n\n.btn-secondary \x7b\n  @apply bg-orange-500 hover:bg-orange-600 text-white px-6 py-3 rounded-lg font-semibold transition-colors;\n\x7d\n\n.card \x7b\n  @apply bg-white rounded-lg shadow-md hover:shadow-lg transition-shadow;\n\x7d\n\n.line-clamp-2 \x7b\n  display: -webkit-box;\n  -webkit-line-clamp: 2;\n  -webkit-box-orient: vertical;\n  overflow: hidden;\n\x7d\n\n.line-clamp-3 \x7b\n  display: -webkit-box;\n  -webkit-line-clamp: 3;\n  -webkit-box-orient: vertical;\n  overflow: hidden;\n\x7d\n\n/* Custom animations */\n@keyframes fadeInUp \x7b\n  from \x7b\n    opacity: 0;\n    transform: translateY(30px);\n  \x7d\n  to \x7b\n    opacity: 1;\n    transform: translateY(0);\n  \x7d\n\x7d\n\n.fade-in-up \x7b\n  animation: fadeInUp 0.6s ease-out;\n\x7d\n\n/* Responsive utilities */\n@media (max-width: 768px) \x7b\n  .container \x7b\n    padding-left: 1rem;\n    padding-right: 1rem;\n  \x7d\n\x7d")

/-- `_create_tailwind_config` (`generator_agent.py`, lines 897-947): a fixed string. -/
def _create_tailwind_config (_vars : TemplateVars) : String :=
  "/** @type \x7bimport('tailwindcss').Config\x7d */\nmodule.exports = \x7b\n  content: [\n    './pages/**/*.\x7bjs,ts,jsx,tsx,mdx\x7d',\n    './components/**/*.\x7bjs,ts,jsx,tsx,mdx\x7d',\n    './app/**/*.\x7bjs,ts,jsx,tsx,mdx\x7d',\n  ],\n  theme: \x7b\n    extend: \x7b\n      colors: \x7b\n        'adventure-green': \x7b\n          50: '#f0f9f0',\n          100: '#dcf2dc',\n          500: '#2D5016',\n          600: '#1f3d0f',\n          700: '#1a3d0f',\n          800: '#133009',\n          900: '#0f2607',\n        \x7d,\n        'nature-sage': \x7b\n          100: '#f4f6f0',\n          200: '#e8f0dc',\n          300: '#8FBC8F',\n          400: '#7ba67b',\n          500: '#6b9a6b',\n        \x7d,\n        'earth-tan': \x7b\n          100: '#faf9f5',\n          200: '#f5f3eb',\n          300: '#F5F5DC',\n          400: '#e8e6d6',\n          500: '#dbd9c8',\n        \x7d\n      \x7d,\n      fontFamily: \x7b\n        'sans': ['Open Sans', 'sans-serif'],\n        'heading': ['Montserrat', 'sans-serif'],\n        'accent': ['Roboto Slab', 'serif'],\n      \x7d,\n      aspectRatio: \x7b\n        '4/3': '4 / 3',\n        '3/2': '3 / 2',\n        '5/4': '5 / 4',\n      \x7d\n    \x7d,\n  \x7d,\n  plugins: [],\n\x7d"

/-- `_create_postcss_config` (`generator_agent.py`, lines 949-957): a fixed string (the source function takes no template variables). -/
def _create_postcss_config : String :=
  "module.exports = \x7b\n  plugins: \x7b\n    tailwindcss: \x7b\x7d,\n    autoprefixer: \x7b\x7d,\n  \x7d,\n\x7d"

/-- `_create_next_config` (`generator_agent.py`, lines 984-1033).  Partial: subscripting `niche_config["site_config"]["niche"]` raises `KeyError`/`TypeError` when absent or not a dict. -/
def _create_next_config (vars : TemplateVars) : Except String String := do
  let site_config ← pySub vars.niche_config "site_config"
  let nicheName ← pySub site_config "niche"
  pure ("/** @type \x7bimport('next').NextConfig\x7d */\nconst nextConfig = \x7b\n  reactStrictMode: true,\n  swcMinify: true,\n  \n  images: \x7b\n    domains: [\n      'images-na.ssl-images-amazon.com',\n      'www.cabelas.com',\n      'm.media-amazon.com',\n      'assets.cabelas.com'\n    ],\n    formats: ['image/webp', 'image/avif'],\n  \x7d,\n  \n  env: \x7b\n    SCRAPER_API_URL: process.env.SCRAPER_API_URL,\n    BRAND_NAME: '"
    ++ (vars.brand_name)
    ++ "',\n    SITE_NICHE: '"
    ++ (pyStr nicheName)
    ++ "',\n  \x7d,\n  \n  async headers() \x7b\n    return [\n      \x7b\n        source: '/api/:path*',\n        headers: [\n          \x7b\n            key: 'Cache-Control',\n            value: 'public, s-maxage=300, stale-while-revalidate=600',\n          \x7d,\n        ],\n      \x7d,\n    ]\n  \x7d,\n  \n  async redirects() \x7b\n    return [\n      \x7b\n        source: '/products',\n        destination: '/',\n        permanent: true,\n      \x7d,\n    ]\n  \x7d,\n\x7d\n\nmodule.exports = nextConfig")

/-- `_create_env_example` (`generator_agent.py`, lines 1035-1051).  Partial: the same `site_config`/`niche` subscripts as `_create_next_config`. -/
def _create_env_example (vars : TemplateVars) : Except String String := do
  let site_config ← pySub vars.niche_config "site_config"
  let nicheName ← pySub site_config "niche"
  pure ("# API Configuration\nSCRAPER_API_URL="
    ++ (vars.api_url)
    ++ "\n\n# Site Configuration\nNEXT_PUBLIC_BRAND_NAME="
    ++ (vars.brand_name)
    ++ "\nNEXT_PUBLIC_SITE_NICHE="
    ++ (pyStr nicheName)
    ++ "\n\n# Analytics (Optional)\nNEXT_PUBLIC_GA_ID=\nNEXT_PUBLIC_HOTJAR_ID=\n\n# Affiliate Programs (Optional)\nAMAZON_ASSOCIATE_TAG=\nCABELAS_AFFILIATE_ID=")

/-- `_create_vercel_config` (`generator_agent.py`, lines 1053-1087): a fixed string. -/
def _create_vercel_config (_vars : TemplateVars) : String :=
  "\x7b\n  \"version\": 2,\n  \"framework\": \"nextjs\",\n  \"buildCommand\": \"npm run build\",\n  \"outputDirectory\": \".next\",\n  \"installCommand\": \"npm install\",\n  \"devCommand\": \"npm run dev\",\n  \"env\": \x7b\n    \"SCRAPER_API_URL\": \"@scraper-api-url\"\n  \x7d,\n  \"build\": \x7b\n    \"env\": \x7b\n      \"SCRAPER_API_URL\": \"@scraper-api-url\"\n    \x7d\n  \x7d,\n  \"functions\": \x7b\n    \"pages/api/**/*.js\": \x7b\n      \"maxDuration\": 30\n    \x7d\n  \x7d,\n  \"headers\": [\n    \x7b\n      \"source\": \"/api/(.*)\",\n      \"headers\": [\n        \x7b\n          \"key\": \"Cache-Control\",\n          \"value\": \"public, s-maxage=300, stale-while-revalidate=600\"\n        \x7d\n      ]\n    \x7d\n  ]\n\x7d"

/-- `_create_readme` (`generator_agent.py`, lines 1108-1227).  Partial: subscripting `site_config`/`primary_categories`, joining a non-string category list, and `.get` on a non-dict colour scheme all raise. -/
def _create_readme (vars : TemplateVars) : Except String String := do
  let cats ← pySub (← pySub vars.niche_config "site_config") "primary_categories"
  let catsJoined ← pyJoin ", " cats
  let cP ← pyGetE vars.color_scheme "primary" (Json.str "#2D5016")
  let cS ← pyGetE vars.color_scheme "secondary" (Json.str "#8FBC8F")
  let cA ← pyGetE vars.color_scheme "accent" (Json.str "#F4A460")
  pure ("# "
    ++ (vars.brand_name)
    ++ "\n\nAn affiliate marketing website for outdoor adventure gear, built with Next.js and connected to a live product API.\n\n## 🚀 Features\n\n- **Live Product Data**: Connected to scraper API at `"
    ++ (vars.api_url)
    ++ "`\n- **Responsive Design**: Mobile-first, optimized for all devices\n- **SEO Optimized**: Fast loading, search engine friendly\n- **Conversion Focused**: Optimized for affiliate marketing\n- **Modern Stack**: Next.js, React, Tailwind CSS\n\n## 📊 Current Data\n\n- **Total Products**: "
    ++ (pyStr vars.total_products)
    ++ "\n- **Product Sources**: Amazon, Cabela's\n- **Categories**: "
    ++ (catsJoined)
    ++ "\n- **Last Updated**: "
    ++ (vars.generated_at)
    ++ "\n\n## 🛠️ Development\n\n```bash\n# Install dependencies\nnpm install\n\n# Start development server\nnpm run dev\n\n# Build for production\nnpm run build\n```\n\n## 🌐 Deployment\n\n### Vercel (Recommended)\n\n1. **Connect to Vercel**:\n   ```bash\n   npx vercel\n   ```\n\n2. **Set Environment Variables**:\n   - `SCRAPER_API_URL`: `"
    ++ (vars.api_url)
    ++ "`\n\n3. **Deploy**:\n   ```bash\n   npx vercel --prod\n   ```\n\n### Environment Variables\n\nCreate `.env.local`:\n```bash\nSCRAPER_API_URL="
    ++ (vars.api_url)
    ++ "\n```\n\n## 📈 Performance\n\n- ⚡ **Lighthouse Score**: 95+\n- 🚀 **First Contentful Paint**: <1.5s\n- 📱 **Mobile Optimized**: Perfect mobile experience\n- 💡 **SEO Ready**: Structured data and meta tags\n\n## 🔗 API Integration\n\nThe site connects to your GCS server for real-time product data:\n\n- **Health Check**: `"
    ++ (vars.api_url)
    ++ "/health`\n- **Products API**: `"
    ++ (vars.api_url)
    ++ "/products`\n- **Fallback**: Built-in fallback data if API is unavailable\n\n## 📁 Project Structure\n\n```\n"
    ++ (vars.brand_slug)
    ++ "/\n├── pages/\n│   ├── index.js           # Home page\n│   ├── category/\n│   │   └── [slug].js      # Category pages\n│   └── api/\n│       └── products.js    # API proxy\n├── components/\n│   ├── Navigation.js      # Header navigation\n│   ├── Hero.js           # Hero section\n│   ├── ProductGrid.js    # Product listing\n│   ├── ProductCard.js    # Individual product\n│   └── Footer.js         # Footer\n├── styles/\n│   └── globals.css       # Global styles\n└── config files...\n```\n\n## 🎨 Customization\n\n### Colors\n\nEdit `tailwind.config.js` to change the color scheme:\n- **Primary**: "
    ++ (pyStr cP)
    ++ "\n- **Secondary**: "
    ++ (pyStr cS)
    ++ "\n- **Accent**: "
    ++ (pyStr cA)
    ++ "\n\n### Content\n\nEdit the configuration in `config/outdoor-adventure.json` to customize:\n- Brand messaging\n- Category listings\n- SEO settings\n- Design preferences\n\n## 📞 Support\n\nGenerated by the Integrated Site Builder system.\nConnected to GCS server for live product data.\n\n---\n\n**Built with ❤️ for outdoor adventure enthusiasts**")

/-- `_create_deployment_guide` (`generator_agent.py`, lines 1229-1301). -/
def _create_deployment_guide (vars : TemplateVars) : String :=
  "# Deployment Guide - "
    ++ (vars.brand_name)
    ++ "\n\n## Quick Deploy to Vercel\n\n### 1. Install Vercel CLI\n```bash\nnpm install -g vercel\n```\n\n### 2. Deploy\n```bash\nnpx vercel --prod\n```\n\n### 3. Set Environment Variables\nIn Vercel Dashboard → Settings → Environment Variables:\n\n- **Name**: `SCRAPER_API_URL`\n- **Value**: `"
    ++ (vars.api_url)
    ++ "`\n- **Environments**: All\n\n### 4. Redeploy\n```bash\nnpx vercel --prod\n```\n\n## Environment Variables\n\n### Required\n- `SCRAPER_API_URL`: Your GCS server URL\n\n### Optional\n- `NEXT_PUBLIC_GA_ID`: Google Analytics ID\n- `AMAZON_ASSOCIATE_TAG`: Amazon affiliate tag\n- `CABELAS_AFFILIATE_ID`: Cabela's affiliate ID\n\n## Testing Deployment\n\n1. **Check Homepage**: Should load with products\n2. **Test API Route**: `/api/products` should return data\n3. **Verify Mobile**: Responsive design works\n4. **Check Performance**: Lighthouse audit 90+\n\n## Troubleshooting\n\n### No Products Showing\n1. Check API URL is correct\n2. Verify server is running: `"
    ++ (vars.api_url)
    ++ "/health`\n3. Check browser console for errors\n\n### Slow Loading\n1. Check API response time\n2. Verify image optimization\n3. Test with Lighthouse\n\n### Deployment Issues\n1. Check environment variables are set\n2. Verify build completes successfully\n3. Check Vercel function logs\n\n## Monitoring\n\nMonitor your deployment:\n- **Vercel Analytics**: Built-in performance monitoring\n- **API Health**: `"
    ++ (vars.api_url)
    ++ "/health`\n- **Product Count**: `/api/products` response\n\n---\n\nYour site is now live and connected to your product data! 🚀"
/-- `_generate_package_json` (`generator_agent.py`, lines 200-235): the
package manifest, named after the brand slug. -/
def _generate_package_json (vars : TemplateVars) : String :=
  jsonDumps (Json.obj [
    ("name", Json.str vars.brand_slug),
    ("version", Json.str "1.0.0"),
    ("description", Json.str ("Affiliate marketing website for " ++ vars.brand_name)),
    ("scripts", Json.obj [
      ("dev", Json.str "next dev"),
      ("build", Json.str "next build"),
      ("start", Json.str "next start"),
      ("lint", Json.str "next lint"),
      ("export", Json.str "next build && next export")]),
    ("dependencies", Json.obj [
      ("next", Json.str "^14.0.0"),
      ("react", Json.str "^18.0.0"),
      ("react-dom", Json.str "^18.0.0"),
      ("@next/font", Json.str "^14.0.0"),
      ("tailwindcss", Json.str "^3.3.0"),
      ("autoprefixer", Json.str "^10.4.16"),
      ("postcss", Json.str "^8.4.31"),
      ("axios", Json.str "^1.6.0"),
      ("swr", Json.str "^2.2.4")]),
    ("devDependencies", Json.obj [
      ("eslint", Json.str "^8.0.0"),
      ("eslint-config-next", Json.str "^14.0.0"),
      ("@types/node", Json.str "^20.0.0"),
      ("@types/react", Json.str "^18.0.0"),
      ("@types/react-dom", Json.str "^18.0.0"),
      ("typescript", Json.str "^5.0.0")])])

/-- The `template_vars` record of `_generate_website_files` (lines 153-163),
assembled from the values the surrounding code has computed. -/
def buildTemplateVars (brand_name brand_slug api_url : String)
    (niche_config sample_products total_products : Json) (generated_at : String)
    (color_scheme content_strategy : Json) : TemplateVars :=
  { brand_name := brand_name
    brand_slug := brand_slug
    api_url := api_url
    niche_config := niche_config
    sample_products := sample_products
    total_products := total_products
    generated_at := generated_at
    color_scheme := color_scheme
    content_strategy := content_strategy }

/-- `_generate_website_files` together with its `_generate_pages`,
`_generate_components`, `_generate_styles`, `_generate_config_files` and
`_generate_documentation` helpers (`generator_agent.py`, lines 139-198,
237-260, 475-511, 794-818, 959-982, 1089-1106): builds `template_vars` and
renders the fixed catalog of seventeen output files, recording each path.
File writes are modelled as succeeding; the result is the ordered list of
(path, content) pairs the source writes (the source writes each file as soon
as its content is rendered, so on an error the files already listed before
the failing one are on disk — no claim depends on that partial tree).
`now` stands for `datetime.now().isoformat()`. -/
def _generate_website_files (project_path : String) (brand_name : String)
    (niche_config : Json) (product_data : Json) (api_url : String) (now : String) :
    Except String (List (String × String)) := do
  let brand_slug := String.mk (format_brand_name brand_name.toList).slug
  let sample_products ← pySlice (← pyGetE product_data "products" (Json.arr [])) 6
  let total_products ← pyGetE product_data "count" (Json.num 0)
  let design_config ← pyGetE niche_config "design_config" (Json.obj [])
  let color_scheme ← pyGetE design_config "color_scheme" (Json.obj [])
  let content_strategy ← pyGetE niche_config "content_strategy" (Json.obj [])
  let vars : TemplateVars :=
    buildTemplateVars brand_name brand_slug api_url niche_config sample_products
      total_products now color_scheme content_strategy
  let package_json := _generate_package_json vars
  let index_content ← _create_index_page vars
  let api_content ← _create_api_route vars
  let category_content := _create_category_page vars
  let nav_content ← _create_navigation_component vars
  let hero_content := _create_hero_component vars
  let grid_content := _create_product_grid_component vars
  let card_content := _create_product_card_component vars
  let footer_content := _create_footer_component vars
  let global_css ← _create_global_css vars
  let tailwind_config := _create_tailwind_config vars
  let postcss_config := _create_postcss_config
  let next_config ← _create_next_config vars
  let env_example ← _create_env_example vars
  let vercel_config := _create_vercel_config vars
  let readme_content ← _create_readme vars
  let deploy_content := _create_deployment_guide vars
  pure [
    (project_path ++ "/package.json", package_json),
    (project_path ++ "/pages/index.js", index_content),
    (project_path ++ "/pages/api/products.js", api_content),
    (project_path ++ "/pages/category/[slug].js", category_content),
    (project_path ++ "/components/Navigation.js", nav_content),
    (project_path ++ "/components/Hero.js", hero_content),
    (project_path ++ "/components/ProductGrid.js", grid_content),
    (project_path ++ "/components/ProductCard.js", card_content),
    (project_path ++ "/components/Footer.js", footer_content),
    (project_path ++ "/styles/globals.css", global_css),
    (project_path ++ "/tailwind.config.js", tailwind_config),
    (project_path ++ "/postcss.config.js", postcss_config),
    (project_path ++ "/next.config.js", next_config),
    (project_path ++ "/.env.example", env_example),
    (project_path ++ "/vercel.json", vercel_config),
    (project_path ++ "/README.md", readme_content),
    (project_path ++ "/DEPLOYMENT.md", deploy_content)]

/-- The empty product sample `x7b"count": 0, "products": []x7d` that
`_fetch_product_data` returns on every failure (`generator_agent.py`,
lines 133 and 137). -/
def emptyProductSample : Json :=
  Json.obj [("count", Json.num 0), ("products", Json.arr [])]

/-- `_fetch_product_data` (`generator_agent.py`, lines 122-137): returns the
parsed body of a 200 response, and the empty sample on a non-200 status, an
unparseable body or a transport error — it never raises.  Before returning a
200 body the source evaluates `data.get("count", 0)` inside its `try`, in
the logging f-string at line 129; on a body that is not a dict that call
raises `AttributeError`, the `except` at line 135 catches it, and the empty
sample is returned — so the function's result is always a dict. -/
def _fetch_product_data (products : Transport) : Json :=
  match products with
  | .ok r =>
    if r.status == 200 then
      match r.body with
      | .ok data =>
        match pyGetE data "count" (Json.num 0) with
        | .ok _ => data
        | .error _ => emptyProductSample
      | .error _ => emptyProductSample
    else
      emptyProductSample
  | .error _ => emptyProductSample

/-- The environment of one `generate_affiliate_site` run: the outcomes of
the four HTTP calls it makes, in order (health, products and sites during
server validation, then the product fetch of `_fetch_product_data` — a
separate later call, so the server may answer it differently), the
niche-configuration store backing `load_niche_config` (`shared/config.py`,
lines 102-111; `none` models a missing niche configuration file, whose
`FileNotFoundError` the generator's `except` catches), and the generation
timestamp. -/
structure GenEnv where
  health : Transport
  products1 : Transport
  sites : Transport
  products2 : Transport
  nicheConfigs : String → Option Json
  now : String

/-- The dictionary returned by `generate_affiliate_site`
(`generator_agent.py`, lines 98-120): the success dictionary's fields, or
`success = False` with an `error` string from the `except` clause.  A field
absent from the returned dictionary is `none`; `generation_time` is a
wall-clock duration, modelled as `0`. -/
structure GenResult where
  success : Bool
  error : Option String
  project_path : Option String
  brand_name : Option String
  niche : Option String
  api_url : Option String
  generated_files : Option (List String)
  generation_time : Option Nat
  product_count : Option Nat
  next_steps : Option (List String)

/-- The `try` body of `generate_affiliate_site` (`generator_agent.py`,
lines 74-113): validate the server (a `False` result raises the
"GCS server validation failed" exception; a `TypeError` raised inside
`validate_existing_server` propagates here too), load the niche
configuration, derive the slug and project path, fetch the product sample,
render all files, and count `product_data.get("products", [])`. -/
def generateAffiliateSiteBody (env : GenEnv)
    (brand_name niche scraper_api_url : String) :
    Except String (String × List (String × String) × Nat) := do
  let validated ←
    match validate_existing_server scraper_api_url env.health env.products1 env.sites with
    | none => throw "TypeError: unorderable comparison in validate_existing_server"
    | some b => pure b
  if validated = false then
    throw "GCS server validation failed"
  else do
    let niche_config ←
      match env.nicheConfigs niche with
      | some c => pure c
      | none => throw ("Configuration file not found: " ++ niche ++ ".json")
    let brand_formatted := format_brand_name brand_name.toList
    let project_path := "./generated/" ++ String.mk brand_formatted.slug
    let product_data := _fetch_product_data env.products2
    let files ←
      _generate_website_files project_path brand_name niche_config product_data
        scraper_api_url env.now
    let product_count ← pyLen (← pyGetE product_data "products" (Json.arr []))
    pure (project_path, files, product_count)

/-- `generate_affiliate_site` (`generator_agent.py`, lines 62-120).  The
`target_audience` parameter is accepted and never read, as in the source. -/
def generate_affiliate_site (env : GenEnv)
    (brand_name niche _target_audience scraper_api_url : String) : GenResult :=
  match generateAffiliateSiteBody env brand_name niche scraper_api_url with
  | .ok (project_path, files, product_count) =>
    { success := true
      error := none
      project_path := some project_path
      brand_name := some brand_name
      niche := some niche
      api_url := some scraper_api_url
      generated_files := some (files.map Prod.fst)
      generation_time := some 0
      product_count := some product_count
      next_steps := some [
        "Review generated website files",
        "Test locally with npm run dev",
        "Deploy to Vercel",
        "Configure environment variables"] }
  | .error e =>
    { success := false
      error := some e
      project_path := none
      brand_name := none
      niche := none
      api_url := none
      generated_files := none
      generation_time := none
      product_count := none
      next_steps := none }

/-- The dictionary returned by `deploy_to_vercel` (`generator_agent.py`,
lines 1312-1317). -/
structure VercelResult where
  success : Bool
  vercel_url : String
  deployment_time : Nat
deriving DecidableEq

/-- `deploy_to_vercel` (`generator_agent.py`, lines 1303-1317): the stubbed
deployment.  No network call is made; the returned URL is built from the
slug of the string literal `'Adventure Gear Pro'` hard-coded in the source,
whatever project path, API URL or token is passed. -/
def deploy_to_vercel (_project_path _api_url : String)
    (_vercel_token : Option String) : VercelResult :=
  { success := true
    vercel_url :=
      "https://" ++ String.mk (format_brand_name ("Adventure Gear Pro".toList)).slug
        ++ ".vercel.app"
    deployment_time := 45 }

/-- The deployment-record filename computed by `_save_deployment_record`
(`main.py`, lines 203-223): `summary["brand_name"].lower().replace(" ", "-")`
followed by `"-deployment.json"` (`summary["brand_name"]` is the brand name
of the run, and the containing directory `./deployed` is omitted here). -/
def deploymentRecordFilename (brand_name : List Char) : List Char :=
  pyReplace [' '] ['-'] (pyLower brand_name) ++ "-deployment.json".toList

/-! ## Shape predicates for the generation-success theorem -/

/-- Whether a parsed JSON value is a dict. -/
def isObj : Json → Bool
  | .obj _ => true
  | _ => false

/-- Whether an `Except` computation succeeded. -/
def exceptOk {α : Type} : Except String α → Bool
  | .ok _ => true
  | .error _ => false

/-- Whether `x[:n]` slicing is defined on a value (lists and strings). -/
def isSliceable : Json → Bool
  | .arr _ => true
  | .str _ => true
  | _ => false

/-- Well-formedness of a loaded niche configuration: exactly the partial
operations the template generators perform on it are defined.  One conjunct
per source site: the `.get` chains of `_generate_website_files` lines
161-162, the `[0]` indexings of `_create_index_page` lines 303-314 with
their respective defaults, the `seo_optimization` chain of line 304, the
`site_config` `.get` of `_create_navigation_component` line 516, the
colour-scheme `.get`s of `_create_global_css`/`_create_readme`, the
`["site_config"]["niche"]` subscripts of `_create_next_config`/
`_create_env_example` (lines 1005, 1043), and the
`", ".join(...["primary_categories"])` of `_create_readme` line 1127. -/
def wfNicheConfig (nc : Json) : Bool :=
  isObj nc &&
  isObj (dictGet nc "design_config" (Json.obj [])) &&
  isObj (dictGet (dictGet nc "design_config" (Json.obj [])) "color_scheme" (Json.obj [])) &&
  isObj (dictGet nc "content_strategy" (Json.obj [])) &&
  isObj (dictGet nc "seo_optimization" (Json.obj [])) &&
  isObj (dictGet nc "site_config" (Json.obj [])) &&
  exceptOk (pyIndex0 (dictGet (dictGet nc "content_strategy" (Json.obj []))
    "hero_headlines" (Json.arr [Json.str "Quality Outdoor Gear"]))) &&
  exceptOk (pyIndex0 (dictGet (dictGet nc "content_strategy" (Json.obj []))
    "hero_headlines" (Json.arr [Json.str "Gear Up for Adventure"]))) &&
  exceptOk (pyIndex0 (dictGet (dictGet nc "content_strategy" (Json.obj []))
    "value_propositions" (Json.arr [Json.str "Quality gear at great prices"]))) &&
  exceptOk (pyIndex0 (dictGet (dictGet nc "content_strategy" (Json.obj []))
    "primary_ctas" (Json.arr [Json.str "Shop Now"]))) &&
  exceptOk (pySub nc "site_config" >>= fun sc => pySub sc "niche") &&
  exceptOk (pySub nc "site_config" >>= fun sc =>
    pySub sc "primary_categories" >>= fun cats => pyJoin ", " cats)

/-- The seventeen relative paths of the fixed output catalog, in the order
`_generate_website_files` writes them. -/
def expectedGeneratedPaths (project_path : String) : List String := [
  project_path ++ "/package.json",
  project_path ++ "/pages/index.js",
  project_path ++ "/pages/api/products.js",
  project_path ++ "/pages/category/[slug].js",
  project_path ++ "/components/Navigation.js",
  project_path ++ "/components/Hero.js",
  project_path ++ "/components/ProductGrid.js",
  project_path ++ "/components/ProductCard.js",
  project_path ++ "/components/Footer.js",
  project_path ++ "/styles/globals.css",
  project_path ++ "/tailwind.config.js",
  project_path ++ "/postcss.config.js",
  project_path ++ "/next.config.js",
  project_path ++ "/.env.example",
  project_path ++ "/vercel.json",
  project_path ++ "/README.md",
  project_path ++ "/DEPLOYMENT.md"]

/-! ## Concrete fixtures used by the closed theorems below -/

/-- A well-formed niche configuration (the shape of
`config/outdoor-adventure.json` as the templates consume it). -/
def cfgOutdoor : Json := Json.obj [
  ("site_config", Json.obj [
    ("niche", Json.str "outdoor-adventure"),
    ("primary_categories",
      Json.arr [Json.str "hiking-gear", Json.str "camping-equipment"])]),
  ("design_config", Json.obj [
    ("color_scheme", Json.obj [("primary", Json.str "#2D5016")])]),
  ("content_strategy", Json.obj [
    ("hero_headlines", Json.arr [Json.str "Gear Up"])])]

/-- A healthy validation-time server: health 200, twelve products, the
`amazon` source listed. -/
def respHealth : Transport := .ok ⟨200, .ok Json.null⟩

/-- The validation-time products response: 200 with a well-formed body. -/
def respProducts : Transport :=
  .ok ⟨200, .ok (Json.obj [("count", Json.num 12), ("products", Json.arr [Json.str "x"])])⟩

/-- The validation-time sites response: 200 listing `amazon`. -/
def respSites : Transport :=
  .ok ⟨200, .ok (Json.obj [("sites", Json.arr [Json.str "amazon"])])⟩

/-- A generation run whose validation passes and whose later product fetch
delivers a 200 response whose JSON body is a bare number, not an object:
the `data.get("count", 0)` in the logging line inside
`_fetch_product_data`'s `try` raises, the empty sample is substituted, and
generation proceeds. -/
def envNonDictBody : GenEnv :=
  { health := respHealth
    products1 := respProducts
    sites := respSites
    products2 := .ok ⟨200, .ok (Json.num 5)⟩
    nicheConfigs := fun _ => some cfgOutdoor
    now := "2024-01-01T00:00:00" }

/-- A generation run whose validation passes and whose later product fetch
delivers a 200 response with the dict body
`x7b"count": 1, "products": 7x7d`: the body passes the fetch's own
`data.get("count", 0)` guard and is returned, and the generator's slice
`product_data.get("products", [])[:6]` then raises `TypeError`. -/
def envBadProducts : GenEnv :=
  { health := respHealth
    products1 := respProducts
    sites := respSites
    products2 := .ok ⟨200, .ok (Json.obj [("count", Json.num 1), ("products", Json.num 7)])⟩
    nicheConfigs := fun _ => some cfgOutdoor
    now := "2024-01-01T00:00:00" }

/-- A niche configuration that loads fine but declares an empty
`hero_headlines` list: `_create_index_page`'s `[0]` indexing raises
`IndexError` on it. -/
def cfgBadHeadlines : Json := Json.obj [
  ("site_config", Json.obj [
    ("niche", Json.str "outdoor-adventure"),
    ("primary_categories",
      Json.arr [Json.str "hiking-gear", Json.str "camping-equipment"])]),
  ("design_config", Json.obj [
    ("color_scheme", Json.obj [("primary", Json.str "#2D5016")])]),
  ("content_strategy", Json.obj [
    ("hero_headlines", Json.arr [])])]

/-- A generation run whose validation passes, whose product fetch is
healthy, but whose loaded niche configuration is `cfgBadHeadlines`. -/
def envBadConfig : GenEnv :=
  { health := respHealth
    products1 := respProducts
    sites := respSites
    products2 := .ok ⟨200, .ok (Json.obj [("count", Json.num 12), ("products", Json.arr [Json.str "x"])])⟩
    nicheConfigs := fun _ => some cfgBadHeadlines
    now := "2024-01-01T00:00:00" }

/-- The same run, but the later product fetch times out: the claimed
soft-fail path, in which the empty sample is substituted. -/
def envFetchTimeout : GenEnv :=
  { health := respHealth
    products1 := respProducts
    sites := respSites
    products2 := .error "ReadTimeout"
    nicheConfigs := fun _ => some cfgOutdoor
    now := "2024-01-01T00:00:00" }

/-- The ASCII letters, digits, space and hyphen: brand names drawn from
these characters are the ones on which `_save_deployment_record`'s filename
and the §4.3 slug agree. -/
def simpleBrandChars : List Char :=
  "abcdefghijklmnopqrstuvwxyzABCDEFGHIJKLMNOPQRSTUVWXYZ0123456789 -".toList

/-- `True` when every character of `k` is neither `x7b` nor `x7d`: the keys
actually used by this code base (identifiers such as `brand_name`) are all
brace-free. -/
def braceFree (k : List Char) : Prop := ∀ c ∈ k, c ≠ '{' ∧ c ≠ '}'

instance (k : List Char) : Decidable (braceFree k) :=
  inferInstanceAs (Decidable (∀ c ∈ k, c ≠ '{' ∧ c ≠ '}'))

/-- The slug exactly as the specification words it in §4.3 and the C6 claim:
lower-case the brand name, replace every space and every underscore with a
hyphen, then delete every character that is neither alphanumeric nor a
hyphen.  A spec-side definition, to be compared with the slug computed by
`format_brand_name`. -/
def slugSpec (b : List Char) : List Char :=
  ((b.map Char.toLower).map (fun c => if c = ' ' ∨ c = '_' then '-' else c)).filter
    (fun c => pyIsAlnum c || c == '-')

/-- A template context holding four sample products, used to witness the
fallback-payload mismatch of the generated API route. -/
def varsFour : TemplateVars :=
  { brand_name := "B"
    brand_slug := "b"
    api_url := "http://x"
    niche_config := Json.obj []
    sample_products := Json.arr [Json.num 1, Json.num 2, Json.num 3, Json.num 4]
    total_products := Json.num 4
    generated_at := "t"
    color_scheme := Json.obj []
    content_strategy := Json.obj [] }

/-! ## General lemmas -/

theorem pyReplaceGo_congr (pat rep : List Char) :
    ∀ (f1 : Nat) (s : List Char) (f2 : Nat), s.length ≤ f1 → s.length ≤ f2 →
      pyReplaceGo pat rep f1 s = pyReplaceGo pat rep f2 s := by
  intro f1
  induction f1 with
  | zero =>
    intro s f2 h1 _
    have : s = [] := List.eq_nil_of_length_eq_zero (Nat.le_zero.mp h1)
    subst this
    cases f2 <;> rfl
  | succ n ih =>
    intro s f2 h1 h2
    cases s with
    | nil => cases f2 <;> rfl
    | cons c rest =>
      have hl : rest.length + 1 ≤ f2 := by simpa using h2
      obtain ⟨m, rfl⟩ : ∃ m, f2 = m + 1 := ⟨f2 - 1, by omega⟩
      simp only [pyReplaceGo]
      by_cases hp : pat ≠ [] ∧ pat.isPrefixOf (c :: rest)
      · simp only [if_pos hp]
        have hpat : 1 ≤ pat.length := List.length_pos.mpr hp.1
        have hdl : ((c :: rest).drop pat.length).length ≤ n := by
          simp only [List.length_drop, List.length_cons]
          simp only [List.length_cons] at h1
          omega
        have hdl2 : ((c :: rest).drop pat.length).length ≤ m := by
          simp only [List.length_drop, List.length_cons]
          omega
        rw [ih _ _ hdl hdl2]
      · simp only [if_neg hp]
        have hr1 : rest.length ≤ n := by simp only [List.length_cons] at h1; omega
        have hr2 : rest.length ≤ m := by omega
        rw [ih _ _ hr1 hr2]

/-- The recursion equation of `pyReplace`, as written in
`shared/utils.py`'s `str.replace` semantics. -/
theorem pyReplace_eq (pat rep : List Char) (s : List Char) :
    pyReplace pat rep s =
      match s with
      | [] => []
      | c :: rest =>
        if pat ≠ [] ∧ pat.isPrefixOf (c :: rest) then
          rep ++ pyReplace pat rep ((c :: rest).drop pat.length)
        else
          c :: pyReplace pat rep rest := by
  cases s with
  | nil => rfl
  | cons c rest =>
    simp only [pyReplace, List.length_cons, pyReplaceGo]
    by_cases hp : pat ≠ [] ∧ pat.isPrefixOf (c :: rest)
    · simp only [if_pos hp]
      have hpat : 1 ≤ pat.length := List.length_pos.mpr hp.1
      congr 1
      exact pyReplaceGo_congr pat rep _ _ _
        (by simp only [List.length_drop, List.length_cons]; omega)
        (le_refl _)
    · simp only [if_neg hp]
      try rfl

theorem pyReplace_nil (pat rep : List Char) : pyReplace pat rep [] = [] := rfl

theorem pyReplace_cons (pat rep : List Char) (c : Char) (rest : List Char) :
    pyReplace pat rep (c :: rest) =
      if pat ≠ [] ∧ pat.isPrefixOf (c :: rest) then
        rep ++ pyReplace pat rep ((c :: rest).drop pat.length)
      else
        c :: pyReplace pat rep rest :=
  pyReplace_eq pat rep (c :: rest)

theorem braceFree_of_cons {a : Char} {k : List Char} (h : braceFree (a :: k)) :
    braceFree k :=
  fun c hc => h c (List.mem_cons_of_mem a hc)

theorem tok_ne_nil (k : List Char) : tok k ≠ [] := by simp [tok]

/-- Two brace-free keys followed by the closing braces of their tokens can
only agree when the keys agree: the first closing brace pins down where each
key ends. -/
theorem braceFree_append_inj {k p : List Char} (hk : braceFree k) (hp : braceFree p) :
    ∀ {b t : List Char}, k ++ '}' :: '}' :: b = p ++ '}' :: '}' :: t → k = p := by
  induction k generalizing p with
  | nil =>
    intro b t h
    cases p with
    | nil => rfl
    | cons c p' =>
      rw [List.nil_append, List.cons_append] at h
      injection h with h1 _
      exact absurd h1.symm (hp c (List.mem_cons_self c p')).2
  | cons a k' ih =>
    intro b t h
    cases p with
    | nil =>
      rw [List.nil_append, List.cons_append] at h
      injection h with h1 _
      exact absurd h1 (hk a (List.mem_cons_self a k')).2
    | cons c p' =>
      rw [List.cons_append, List.cons_append] at h
      injection h with h1 h2
      rw [h1, ih (braceFree_of_cons hk) (braceFree_of_cons hp) h2]

/-- Occurrences of the tokens of two brace-free keys starting at the same
position have the same key. -/
theorem tok_start_inj {k p : List Char} (hk : braceFree k) (hp : braceFree p)
    {b t : List Char} (h : tok k ++ b = tok p ++ t) : k = p := by
  simp only [tok, List.cons_append, List.append_assoc, List.cons.injEq, true_and] at h
  exact braceFree_append_inj hk hp (by simpa using h)

/-- The token of a brace-free key `p` is never a prefix of a proper suffix of
the token of a different brace-free key `k` (however the text continues):
distinct tokens cannot overlap. -/
theorem tok_not_prefix_inside {p k : List Char} (hp : braceFree p) (hk : braceFree k)
    (hne : p ≠ k) {u : List Char} {c : Char} {m b' : List Char}
    (hu : u ++ (c :: m) = tok k) (hpre : tok p <+: c :: (m ++ b')) : False := by
  cases u with
  | nil =>
    rw [List.nil_append] at hu
    obtain ⟨t, ht⟩ := hpre
    rw [show c :: (m ++ b') = (c :: m) ++ b' from rfl, hu] at ht
    exact hne (tok_start_inj hp hk ht)
  | cons x u' =>
    cases u' with
    | nil =>
      simp only [tok, List.cons_append, List.nil_append, List.cons.injEq] at hu
      obtain ⟨-, hc, hm⟩ := hu
      subst hc; subst hm
      simp only [tok] at hpre
      rw [List.cons_prefix_cons] at hpre
      obtain ⟨-, hpre⟩ := hpre
      cases k with
      | nil =>
        rw [List.nil_append, List.cons_append, List.cons_append,
          List.cons_prefix_cons] at hpre
        exact absurd hpre.1 (by decide)
      | cons d k' =>
        rw [List.cons_append, List.cons_append, List.cons_prefix_cons] at hpre
        exact absurd hpre.1.symm (hk d (List.mem_cons_self d k')).1
    | cons y u'' =>
      simp only [tok, List.cons_append, List.cons.injEq] at hu
      obtain ⟨-, -, h3⟩ := hu
      have hcmem : c ∈ u'' ++ c :: m := List.mem_append_right u'' (List.mem_cons_self c m)
      rw [h3, List.mem_append] at hcmem
      have hcne : c ≠ '{' := by
        rcases hcmem with hck | hcbr
        · exact (hk c hck).1
        · fin_cases hcbr <;> decide
      simp only [tok] at hpre
      rw [List.cons_prefix_cons] at hpre
      exact hcne hpre.1.symm

/-- When the token of `p` is a prefix of a text containing an occurrence of
the token of a different brace-free key `k`, the whole of `tok p` lies
before that occurrence. -/
theorem tok_prefix_before_occurrence {p k : List Char} (hp : braceFree p)
    (hk : braceFree k) (hne : p ≠ k) {a b t : List Char}
    (h : a ++ (tok k ++ b) = tok p ++ t) : ∃ a2, a = tok p ++ a2 := by
  by_cases hlen : (tok p).length ≤ a.length
  · refine ⟨a.drop (tok p).length, ?_⟩
    have h1 := congrArg (List.take (tok p).length) h
    rw [List.take_left, List.take_append_eq_append_take,
      Nat.sub_eq_zero_of_le hlen, List.take_zero, List.append_nil] at h1
    conv_lhs => rw [← List.take_append_drop (tok p).length a, h1]
  · exfalso
    push_neg at hlen
    have h2 : tok k ++ b = (tok p).drop a.length ++ t := by
      have h3 := congrArg (List.drop a.length) h
      rwa [List.drop_left, List.drop_append_eq_append_drop,
        Nat.sub_eq_zero_of_le (Nat.le_of_lt hlen), List.drop_zero] at h3
    have hq : (tok p).drop a.length ≠ [] := by
      intro hnil
      have := congrArg List.length hnil
      rw [List.length_drop] at this
      simp only [List.length_nil] at this
      omega
    obtain ⟨c, m, hcm⟩ := List.exists_cons_of_ne_nil hq
    have hu : (tok p).take a.length ++ (c :: m) = tok p := by
      rw [← hcm, List.take_append_drop]
    have hpre : tok k <+: c :: (m ++ t) := by
      refine ⟨b, ?_⟩
      rw [h2, hcm, List.cons_append]
    exact tok_not_prefix_inside hk hp (Ne.symm hne) hu hpre

/-- `str.replace` walks unchanged through any suffix of the token of a key
different from the pattern's: no occurrence of the pattern can start inside
it. -/
theorem pyReplace_run_suffix {p k : List Char} (rep : List Char)
    (hp : braceFree p) (hk : braceFree k) (hne : p ≠ k) :
    ∀ (m : List Char), m <:+ tok k → ∀ b,
      pyReplace (tok p) rep (m ++ b) = m ++ pyReplace (tok p) rep b := by
  intro m
  induction m with
  | nil => intro _ b; rw [List.nil_append, List.nil_append]
  | cons c m' ih =>
    intro hsuf b
    obtain ⟨u, hu⟩ := hsuf
    have hnp : ¬ (tok p).isPrefixOf (c :: (m' ++ b)) = true := by
      rw [List.isPrefixOf_iff_prefix]
      intro hpre
      exact tok_not_prefix_inside hp hk hne hu hpre
    rw [List.cons_append, pyReplace_cons, if_neg (fun hcond => hnp hcond.2),
      ih (List.IsSuffix.trans (List.suffix_cons c m') ⟨u, hu⟩) b, List.cons_append]

/-- One `str.replace` with the token of a brace-free key `p` preserves every
occurrence of the token of a different brace-free key `k`. -/
theorem pyReplace_preserves_tok {p k : List Char} (rep : List Char)
    (hp : braceFree p) (hk : braceFree k) (hne : p ≠ k) :
    ∀ (n : Nat) (a b : List Char), a.length = n →
      ∃ a' b', pyReplace (tok p) rep (a ++ tok k ++ b) = a' ++ tok k ++ b' := by
  intro n
  induction n using Nat.strong_induction_on with
  | _ n ih =>
    intro a b hlen
    by_cases hpre : (tok p).isPrefixOf (a ++ tok k ++ b) = true
    · rw [List.isPrefixOf_iff_prefix] at hpre
      obtain ⟨t, ht⟩ := hpre
      rw [List.append_assoc] at ht
      obtain ⟨a2, ha2⟩ := tok_prefix_before_occurrence hp hk hne ht.symm
      have hs : a ++ tok k ++ b = tok p ++ (a2 ++ tok k ++ b) := by
        rw [ha2]; simp [List.append_assoc]
      obtain ⟨c, rest, hcr⟩ :
          ∃ c rest, a ++ tok k ++ b = c :: rest := by
        rcases a with - | ⟨c, a'⟩
        · exact ⟨'{', ('{' :: (k ++ ['}', '}'])) ++ b, by simp [tok]⟩
        · exact ⟨c, _, rfl⟩
      rw [hcr, pyReplace_cons, if_pos ⟨tok_ne_nil p, by
        rw [List.isPrefixOf_iff_prefix, ← hcr, hs]; exact ⟨_, rfl⟩⟩]
      rw [← hcr, hs, List.drop_left]
      have ha2len : a2.length < n := by
        rw [ha2] at hlen
        simp only [List.length_append, tok] at hlen
        simp only [List.length_cons, List.length_append] at hlen
        omega
      obtain ⟨a', b', hab⟩ := ih a2.length ha2len a2 b rfl
      refine ⟨rep ++ a', b', ?_⟩
      rw [hab]
      simp [List.append_assoc]
    · rcases a with - | ⟨c, a''⟩
      · refine ⟨[], pyReplace (tok p) rep b, ?_⟩
        simp only [List.nil_append]
        exact pyReplace_run_suffix rep hp hk hne (tok k) (List.suffix_refl _) b
      · simp only [List.cons_append]
        rw [pyReplace_cons, if_neg (fun hcond => hpre hcond.2)]
        have ha'' : a''.length < n := by
          rw [← hlen]; simp [List.length_cons]
        obtain ⟨a', b', hab⟩ := ih a''.length ha'' a'' b rfl
        refine ⟨c :: a', b', ?_⟩
        rw [hab]
        simp only [List.cons_append]
theorem pyReplace_of_not_infix {pat : List Char} (rep : List Char) :
    ∀ {s : List Char}, ¬ (pat <:+: s) → pyReplace pat rep s = s := by
  intro s
  induction s with
  | nil => intro _; rfl
  | cons c rest ih =>
    intro h
    rw [pyReplace_cons,
      if_neg (fun hcond =>
        h (List.IsPrefix.isInfix (List.isPrefixOf_iff_prefix.mp hcond.2))),
      ih (fun hi => h (List.infix_cons hi))]

theorem render_template_nil (template : List Char) :
    render_template template [] = template := rfl

theorem render_template_cons (template : List Char) (kv : List Char × List Char)
    (ctx : Ctx) :
    render_template template (kv :: ctx) =
      render_template (pyReplace (tok kv.1) kv.2 template) ctx := rfl

theorem pyReplace_single (c d : Char) :
    ∀ s : List Char, pyReplace [c] [d] s = s.map (fun x => if x = c then d else x) := by
  intro s
  induction s with
  | nil => rfl
  | cons x rest ih =>
    rw [pyReplace_cons]
    by_cases hx : x = c
    · rw [if_pos ⟨by simp, by simp [List.isPrefixOf, hx]⟩]
      simp only [List.length_cons, List.length_nil, List.drop_succ_cons,
        List.drop_zero, List.map_cons, if_pos hx]
      rw [ih]
      rfl
    · rw [if_neg (fun hcond => hx (by
        have h2 := hcond.2
        simp only [List.isPrefixOf, List.isPrefixOf_nil_left, Bool.and_true,
          beq_iff_eq] at h2
        exact h2.symm))]
      simp only [List.map_cons, if_neg hx]
      rw [ih]

/-- C7: for every context mapping and every template string that contains no
placeholder token of any key of the context, `render_template` returns the
template unchanged. -/
theorem render_template_no_placeholder_identity (template : List Char) (ctx : Ctx)
    (h : ∀ kv ∈ ctx, ¬ (tok kv.1 <:+: template)) :
    render_template template ctx = template := by
  induction ctx with
  | nil => rfl
  | cons kv ctx' ih =>
    rw [render_template_cons,
      pyReplace_of_not_infix kv.2 (h kv (List.mem_cons_self kv ctx'))]
    exact ih (fun kw hkw => h kw (List.mem_cons_of_mem kv hkw))

/-- Witness for C7 at a concrete template and context. -/
theorem render_template_no_placeholder_identity_witness :
    (∀ kv ∈ ([(['x'], ['y'])] : Ctx), ¬ (tok kv.1 <:+: "hello".toList)) ∧
      render_template ("hello".toList) [(['x'], ['y'])] = "hello".toList :=
  ⟨by decide, render_template_no_placeholder_identity _ _ (by decide)⟩

/-- C3, counterexample to the claim as stated: in the template built of the
two placeholders of the keys `x` and `y` (ten characters, braces included),
the key `x}}x7bx7by` — brace characters inside the key name — is also
referenced by a placeholder token, is absent from the context, and yet its
token does not survive rendering: both substitutions destroy it. -/
theorem render_template_missing_key_counterexample :
    tok ('x' :: '}' :: '}' :: '{' :: '{' :: 'y' :: []) <:+: tok ['x'] ++ tok ['y'] ∧
      (∀ kv ∈ ([(['x'], ['A']), (['y'], ['B'])] : Ctx),
        kv.1 ≠ 'x' :: '}' :: '}' :: '{' :: '{' :: 'y' :: []) ∧
      render_template (tok ['x'] ++ tok ['y']) [(['x'], ['A']), (['y'], ['B'])] =
        ['A', 'B'] ∧
      ¬ (tok ('x' :: '}' :: '}' :: '{' :: '{' :: 'y' :: []) <:+:
          render_template (tok ['x'] ++ tok ['y']) [(['x'], ['A']), (['y'], ['B'])]) := by
  refine ⟨?_, ?_, ?_, ?_⟩ <;> decide

/-- C3 (amended): `render_template` is total and pure — it is a plain Lean
function, embedding a source function that performs only string operations —
and for every key `k` that is brace-free, referenced by a placeholder token
in the template and absent from a context whose keys are all brace-free (as
every key this code base uses is), the literal token `x7bx7bkx7dx7d` survives
rendering unchanged somewhere in the output. -/
theorem render_template_missing_key_passthrough (template : List Char) (ctx : Ctx)
    (k : List Char) (hk : braceFree k)
    (hctx : ∀ kv ∈ ctx, braceFree kv.1)
    (habs : ∀ kv ∈ ctx, kv.1 ≠ k)
    (hocc : tok k <:+: template) :
    tok k <:+: render_template template ctx := by
  induction ctx generalizing template with
  | nil => exact hocc
  | cons kv ctx' ih =>
    obtain ⟨a, b, hab⟩ := hocc
    obtain ⟨a', b', hab'⟩ :=
      pyReplace_preserves_tok kv.2 (hctx kv (List.mem_cons_self kv ctx')) hk
        (habs kv (List.mem_cons_self kv ctx')) a.length a b rfl
    rw [render_template_cons]
    refine ih (pyReplace (tok kv.1) kv.2 template)
      (fun kw hkw => hctx kw (List.mem_cons_of_mem kv hkw))
      (fun kw hkw => habs kw (List.mem_cons_of_mem kv hkw)) ?_
    rw [← hab, hab']
    exact ⟨a', b', rfl⟩

/-- Witness for the amended C3: rendering `x7bx7bnx7dx7d hi x7bx7bxx7dx7d`
with only `n` bound leaves the token of the missing key `x` in the output. -/
theorem render_template_missing_key_passthrough_witness :
    braceFree ['x'] ∧
      (∀ kv ∈ ([(['n'], ['B', 'o', 'b'])] : Ctx), braceFree kv.1) ∧
      (∀ kv ∈ ([(['n'], ['B', 'o', 'b'])] : Ctx), kv.1 ≠ ['x']) ∧
      tok ['x'] <:+: tok ['n'] ++ ' ' :: tok ['x'] ∧
      tok ['x'] <:+:
        render_template (tok ['n'] ++ ' ' :: tok ['x']) [(['n'], ['B', 'o', 'b'])] :=
  ⟨by decide, by decide, by decide, by decide,
    render_template_missing_key_passthrough _ _ ['x'] (by decide) (by decide)
      (by decide) (by decide)⟩

/-- C6: the slug computed by `format_brand_name` is exactly the §4.3
derivation: lower-case, spaces and underscores to hyphens, every character
that is neither alphanumeric nor a hyphen removed. -/
theorem format_brand_name_slug_spec (b : List Char) :
    (format_brand_name b).slug = slugSpec b := by
  simp only [format_brand_name, slugSpec, pyLower]
  rw [pyReplace_single, pyReplace_single, List.map_map, List.map_map, List.map_map]
  congr 1
  apply List.map_congr_left
  intro c _
  simp only [Function.comp]
  generalize Char.toLower c = d
  by_cases hsp : d = ' '
  · subst hsp; decide
  · by_cases hun : d = '_'
    · subst hun; decide
    · simp [hsp, hun]
theorem exceptBind_ok {α β : Type} (a : α) (f : α → Except String β) :
    (Except.ok a : Except String α) >>= f = f a := rfl

theorem exceptBind_error {α β : Type} (e : String) (f : α → Except String β) :
    (Except.error e : Except String α) >>= f = Except.error e := rfl

theorem exceptMap_ok {α β : Type} (a : α) (f : α → β) :
    f <$> (Except.ok a : Except String α) = Except.ok (f a) := rfl

theorem exceptMap_error {α β : Type} (e : String) (f : α → β) :
    f <$> (Except.error e : Except String α) = Except.error e := rfl

theorem serverStatusChecks_error_of_transport {h p s : Transport}
    (herr : (∃ e, h = Except.error e) ∨ (∃ e, p = Except.error e) ∨
      (∃ e, s = Except.error e)) :
    ∃ e', serverStatusChecks h p s = Except.error e' := by
  rcases herr with ⟨e, rfl⟩ | ⟨e, rfl⟩ | ⟨e, rfl⟩
  · exact ⟨e, rfl⟩
  · cases h with
    | error e0 => exact ⟨e0, rfl⟩
    | ok hr => exact ⟨e, rfl⟩
  · cases h with
    | error e0 => exact ⟨e0, rfl⟩
    | ok hr =>
      cases p with
      | error e1 => exact ⟨e1, rfl⟩
      | ok pr =>
        cases hm : productsCountOf pr with
        | error e2 => exact ⟨e2, by simp [serverStatusChecks, hm, exceptBind_ok, exceptBind_error, exceptMap_ok, exceptMap_error]⟩
        | ok v => exact ⟨e, by simp [serverStatusChecks, hm, exceptBind_ok, exceptBind_error, exceptMap_ok, exceptMap_error]⟩

theorem checkServerStatusBody_error_of_transport {h p : Transport}
    (herr : (∃ e, h = Except.error e) ∨ (∃ e, p = Except.error e)) :
    ∃ e', checkServerStatusBody h p = Except.error e' := by
  rcases herr with ⟨e, rfl⟩ | ⟨e, rfl⟩
  · exact ⟨e, rfl⟩
  · cases h with
    | error e0 => exact ⟨e0, rfl⟩
    | ok hr =>
      by_cases h200 : hr.status = 200
      · refine ⟨e, ?_⟩
        unfold checkServerStatusBody
        simp [h200, exceptBind_ok, exceptBind_error, exceptMap_ok, exceptMap_error]
      · refine ⟨"Health check failed: " ++ toString hr.status, ?_⟩
        unfold checkServerStatusBody
        simp only [h200, exceptBind_ok, exceptBind_error, if_neg, ite_not,
          if_false]
        rfl

/-- C2: neither status checker raises to its caller (both are embedded as
total functions), and whenever any of the HTTP calls each one issues fails
with a transport error, `get_server_status` returns a record with
`healthy = False` and an error string, and `check_server_status` returns a
record with `success = False` and an error string. -/
theorem status_checkers_report_transport_errors :
    (∀ (url : String) (h p s : Transport),
        ((∃ e, h = Except.error e) ∨ (∃ e, p = Except.error e) ∨
          (∃ e, s = Except.error e)) →
        (get_server_status url h p s).healthy = false ∧
          ∃ msg, (get_server_status url h p s).error = some msg) ∧
    (∀ h p : Transport,
        ((∃ e, h = Except.error e) ∨ (∃ e, p = Except.error e)) →
        (check_server_status h p).success = false ∧
          ∃ msg, (check_server_status h p).error = some msg) := by
  constructor
  · intro url h p s herr
    obtain ⟨e', he'⟩ := serverStatusChecks_error_of_transport herr
    simp [get_server_status, he']
  · intro h p herr
    obtain ⟨e', he'⟩ := checkServerStatusBody_error_of_transport herr
    simp [check_server_status, he']

/-- Witness for C2: a timed-out health call yields `healthy = False`
(respectively `success = False`) plus an error string. -/
theorem status_checkers_report_transport_errors_witness :
    ((get_server_status "http://srv" (Except.error "timeout") respProducts
        respSites).healthy = false ∧
      ∃ msg, (get_server_status "http://srv" (Except.error "timeout") respProducts
        respSites).error = some msg) ∧
    ((check_server_status (Except.error "timeout") respProducts).success = false ∧
      ∃ msg, (check_server_status (Except.error "timeout")
        respProducts).error = some msg) :=
  ⟨status_checkers_report_transport_errors.1 "http://srv" _ _ _
      (Or.inl ⟨"timeout", rfl⟩),
    status_checkers_report_transport_errors.2 _ _ (Or.inl ⟨"timeout", rfl⟩)⟩

/-- C4, counterexample to the claim as stated: when the `/sites` call fails
with a transport error, the returned record contains no `available_sites`
field at all — the whole `try` block is abandoned — rather than an empty
list. -/
theorem get_server_status_sites_counterexample :
    (get_server_status "http://srv" respHealth respProducts
      (Except.error "timeout")).available_sites = none := rfl

/-- C4 (amended): the record carries an `available_sites` field exactly when
all three calls complete without a transport error (and any 200 body
parses); that field is the `sites` leg's value — the empty list whenever
`/sites` answered with a non-200 status — while on a transport failure of
any call the exception record is returned, which has no `available_sites`
field. -/
theorem get_server_status_available_sites :
    (∀ (url : String) (hr pr sr : Resp) (cnt av : Json),
        productsCountOf pr = Except.ok cnt →
        availableSitesOf sr = Except.ok av →
        (get_server_status url (Except.ok hr) (Except.ok pr)
          (Except.ok sr)).available_sites = some av) ∧
    (∀ sr : Resp, sr.status ≠ 200 → availableSitesOf sr = Except.ok (Json.arr [])) ∧
    (∀ (url : String) (h p s : Transport),
        ((∃ e, h = Except.error e) ∨ (∃ e, p = Except.error e) ∨
          (∃ e, s = Except.error e)) →
        (get_server_status url h p s).available_sites = none) := by
  refine ⟨?_, ?_, ?_⟩
  · intro url hr pr sr cnt av hc ha
    simp [get_server_status, serverStatusChecks, hc, ha, exceptBind_ok, exceptBind_error, exceptMap_ok, exceptMap_error]
  · intro sr hs
    rw [availableSitesOf, if_neg (by simpa using hs)]
    rfl
  · intro url h p s herr
    obtain ⟨e', he'⟩ := serverStatusChecks_error_of_transport herr
    simp [get_server_status, he']

/-- Witness for the amended C4: a 404 from `/sites` yields
`available_sites = []`, a timeout yields a record without the field. -/
theorem get_server_status_available_sites_witness :
    (get_server_status "http://srv" (Except.ok ⟨200, Except.ok Json.null⟩)
        (Except.ok ⟨200, Except.ok (Json.obj [("count", Json.num 12)])⟩)
        (Except.ok ⟨404, Except.ok Json.null⟩)).available_sites =
      some (Json.arr []) ∧
    (get_server_status "http://srv" (Except.ok ⟨200, Except.ok Json.null⟩)
        (Except.ok ⟨200, Except.ok (Json.obj [("count", Json.num 12)])⟩)
        (Except.error "timeout")).available_sites = none :=
  ⟨get_server_status_available_sites.1 "http://srv" _ _ _ (Json.num 12)
      (Json.arr []) rfl (get_server_status_available_sites.2.1 ⟨404, Except.ok Json.null⟩ (by decide)),
    get_server_status_available_sites.2.2 "http://srv" _ _ _
      (Or.inr (Or.inr ⟨"timeout", rfl⟩))⟩

/-- C5: when `/products` answers 200 with a body parsing as a JSON object
(and the record is completed, i.e. the sites leg also succeeds), the
`products_count` field is exactly the body's `count` field with default `0`
— `dictGet`, never the length of the `products` array. -/
theorem get_server_status_products_count (url : String) (hr sr : Resp)
    (pf : List (String × Json)) (av : Json)
    (ha : availableSitesOf sr = Except.ok av) :
    (get_server_status url (Except.ok hr)
        (Except.ok ⟨200, Except.ok (Json.obj pf)⟩)
        (Except.ok sr)).products_count =
      some (dictGet (Json.obj pf) "count" (Json.num 0)) := by
  simp [get_server_status, serverStatusChecks, productsCountOf, pyGetE, ha, exceptBind_ok, exceptBind_error, exceptMap_ok, exceptMap_error, dictGet]

/-- Witness for C5: a body declaring `count = 5` beside an empty `products`
array yields `products_count = 5`, showing the count is not re-derived from
the array's length. -/
theorem get_server_status_products_count_witness :
    (get_server_status "http://srv" (Except.ok ⟨200, Except.ok Json.null⟩)
        (Except.ok ⟨200, Except.ok
          (Json.obj [("count", Json.num 5), ("products", Json.arr [])])⟩)
        (Except.ok ⟨200, Except.ok (Json.obj [("sites", Json.arr [])])⟩)).products_count =
      some (dictGet (Json.obj [("count", Json.num 5), ("products", Json.arr [])])
        "count" (Json.num 0)) ∧
    dictGet (Json.obj [("count", Json.num 5), ("products", Json.arr [])])
        "count" (Json.num 0) = Json.num 5 :=
  ⟨get_server_status_products_count "http://srv" _ _ _ (Json.arr []) rfl, rfl⟩
/-- C8, counterexample to the claim as stated: the project generated for the
brand `Tech Hub` lives at `./generated/tech-hub`, yet deploying that project
returns the fixed URL built from the hard-coded brand `Adventure Gear Pro` —
not one derived from the slug of the project being deployed. -/
theorem deploy_to_vercel_counterexample :
    "./generated/" ++ String.mk (format_brand_name ("Tech Hub".toList)).slug =
      "./generated/tech-hub" ∧
    (deploy_to_vercel "./generated/tech-hub" "http://x" none).vercel_url =
      "https://adventure-gear-pro.vercel.app" ∧
    (deploy_to_vercel "./generated/tech-hub" "http://x" none).vercel_url ≠
      "https://" ++ String.mk (format_brand_name ("Tech Hub".toList)).slug ++
        ".vercel.app" := by
  refine ⟨rfl, rfl, ?_⟩
  decide

/-- C8 (amended): `deploy_to_vercel` performs no network deployment — it is
embedded as a pure function of its arguments — and for every project path,
API URL and token returns the same success record, whose URL is built from
the slug of the string literal `Adventure Gear Pro` hard-coded in the
source, not from the project being deployed. -/
theorem deploy_to_vercel_stub (project_path api_url : String)
    (vercel_token : Option String) :
    deploy_to_vercel project_path api_url vercel_token =
      { success := true
        vercel_url := "https://" ++
          String.mk (format_brand_name ("Adventure Gear Pro".toList)).slug ++
          ".vercel.app"
        deployment_time := 45 } := rfl

/-- C9, counterexample to the claim as stated: for the brand `A_B` the
deployment record is saved as `a_b-deployment.json`, while the §4.3 slug
derivation maps underscores to hyphens and would give
`a-b-deployment.json`. -/
theorem deployment_filename_counterexample :
    deploymentRecordFilename ("A_B".toList) = "a_b-deployment.json".toList ∧
    (format_brand_name ("A_B".toList)).slug ++ "-deployment.json".toList =
      "a-b-deployment.json".toList ∧
    deploymentRecordFilename ("A_B".toList) ≠
      (format_brand_name ("A_B".toList)).slug ++ "-deployment.json".toList :=
  ⟨by decide, by decide, by decide⟩

theorem simpleBrand_char_fact : ∀ c ∈ simpleBrandChars,
    (if (if Char.toLower c = ' ' then '-' else Char.toLower c) = '_' then '-'
      else (if Char.toLower c = ' ' then '-' else Char.toLower c)) =
      (if Char.toLower c = ' ' then '-' else Char.toLower c) ∧
    (pyIsAlnum (if Char.toLower c = ' ' then '-' else Char.toLower c) ||
      ((if Char.toLower c = ' ' then '-' else Char.toLower c) == '-')) = true := by
  decide

/-- C9 (amended): `_save_deployment_record` keys the file by the lower-cased
brand with spaces replaced by hyphens — not by `format_brand_name` — and
this coincides with the §4.3 slug followed by `-deployment.json` exactly on
brand names made of ASCII letters, digits, spaces and hyphens; an
underscore or any other special character makes the two diverge. -/
theorem deployment_filename_matches_slug (b : List Char)
    (hb : ∀ c ∈ b, c ∈ simpleBrandChars) :
    deploymentRecordFilename b =
      (format_brand_name b).slug ++ "-deployment.json".toList := by
  simp only [deploymentRecordFilename, format_brand_name, pyLower]
  rw [pyReplace_single, pyReplace_single]
  simp only [List.map_map]
  congr 1
  induction b with
  | nil => rfl
  | cons c rest ih =>
    have hc := simpleBrand_char_fact c (hb c (List.mem_cons_self c rest))
    simp only [List.map_cons, List.filter_cons, Function.comp_apply]
    rw [hc.1, if_pos hc.2]
    exact congrArg _ (ih (fun d hd => hb d (List.mem_cons_of_mem c hd)))

/-- Witness for the amended C9: for `Adventure Gear Pro` the record filename
equals the slug-derived name. -/
theorem deployment_filename_matches_slug_witness :
    (∀ c ∈ "Adventure Gear Pro".toList, c ∈ simpleBrandChars) ∧
    deploymentRecordFilename ("Adventure Gear Pro".toList) =
      (format_brand_name ("Adventure Gear Pro".toList)).slug ++
        "-deployment.json".toList :=
  ⟨by decide, deployment_filename_matches_slug _ (by decide)⟩

/-- C10: in `_create_api_route`'s embedded fallback payload, `count` is the
number of sample products in the context while `products` holds only the
first three; with more than three sample products the declared count
strictly exceeds the embedded array's length.  The second part records that
the sample placed in the context by `_generate_website_files` is
`products[:6]` — at most six products. -/
theorem api_route_fallback_count_mismatch :
    (∀ (vars : TemplateVars) (xs : List Json),
        vars.sample_products = Json.arr xs →
        3 < xs.length →
        _apiRouteFallbackCount vars = Except.ok xs.length ∧
        _apiRouteFallbackProducts vars = Except.ok (Json.arr (xs.take 3)) ∧
        (xs.take 3).length < xs.length) ∧
    (∀ ys : List Json,
        pySlice (Json.arr ys) 6 = Except.ok (Json.arr (ys.take 6)) ∧
        (ys.take 6).length ≤ 6) := by
  constructor
  · intro vars xs hxs h3
    refine ⟨?_, ?_, ?_⟩
    · simp only [_apiRouteFallbackCount, hxs, pyLen]
    · simp only [_apiRouteFallbackProducts, hxs, pySlice]
    · rw [List.length_take]
      omega
  · intro ys
    exact ⟨rfl, by rw [List.length_take]; omega⟩

/-- Witness for C10: with four sample products the fallback declares
`count = 4` but embeds three products. -/
theorem api_route_fallback_count_mismatch_witness :
    _apiRouteFallbackCount varsFour = Except.ok 4 ∧
    _apiRouteFallbackProducts varsFour =
      Except.ok (Json.arr [Json.num 1, Json.num 2, Json.num 3]) ∧
    ([Json.num 1, Json.num 2, Json.num 3, Json.num 4].take 3).length <
      [Json.num 1, Json.num 2, Json.num 3, Json.num 4].length :=
  ⟨(api_route_fallback_count_mismatch.1 varsFour
      [Json.num 1, Json.num 2, Json.num 3, Json.num 4] rfl (by decide)).1,
    (api_route_fallback_count_mismatch.1 varsFour
      [Json.num 1, Json.num 2, Json.num 3, Json.num 4] rfl (by decide)).2.1,
    (api_route_fallback_count_mismatch.1 varsFour
      [Json.num 1, Json.num 2, Json.num 3, Json.num 4] rfl (by decide)).2.2⟩

/-! ## Helper lemmas for the generation-success theorem -/

/-- `pure` in the `Except String` monad is `Except.ok`. -/
theorem exceptPure {α : Type} (a : α) : (pure a : Except String α) = Except.ok a := rfl

/-- `exceptOk` holds exactly on successful computations. -/
theorem exceptOk_exists {α : Type} (e : Except String α) :
    exceptOk e = true ↔ ∃ v, e = Except.ok v := by
  cases e with
  | ok v => simp [exceptOk]
  | error s => simp [exceptOk]

/-- `isObj` holds exactly on dicts. -/
theorem isObj_exists (j : Json) :
    isObj j = true ↔ ∃ fields, j = Json.obj fields := by
  cases j <;> simp [isObj]

/-- On a dict, `.get` never raises and agrees with `dictGet`. -/
theorem pyGetE_of_isObj {j : Json} (h : isObj j = true) (key : String) (dflt : Json) :
    pyGetE j key dflt = Except.ok (dictGet j key dflt) := by
  obtain ⟨fields, rfl⟩ := (isObj_exists j).mp h
  rfl

/-- The value a successful slice returns is itself sliceable. -/
theorem sliceResult_isSliceable {j s : Json} {n : Nat}
    (h : pySlice j n = Except.ok s) : isSliceable s = true := by
  cases j with
  | arr xs => simp only [pySlice, Except.ok.injEq] at h; subst h; rfl
  | str st => simp only [pySlice, Except.ok.injEq] at h; subst h; rfl
  | null => simp [pySlice] at h
  | bool b => simp [pySlice] at h
  | num n => simp [pySlice] at h
  | obj f => simp [pySlice] at h

/-- A successful slice certifies that the sliced value was sliceable. -/
theorem sliceArg_isSliceable {j s : Json} {n : Nat}
    (h : pySlice j n = Except.ok s) : isSliceable j = true := by
  cases j <;> simp [pySlice] at h <;> rfl

/-- `len` is defined on every sliceable value. -/
theorem pyLen_ok_of_isSliceable {j : Json} (h : isSliceable j = true) :
    ∃ n, pyLen j = Except.ok n := by
  cases j with
  | arr xs => exact ⟨_, rfl⟩
  | str s => exact ⟨_, rfl⟩
  | null => simp [isSliceable] at h
  | bool b => simp [isSliceable] at h
  | num n => simp [isSliceable] at h
  | obj f => simp [isSliceable] at h

/-- Slicing is defined on every sliceable value. -/
theorem pySlice_ok_of_isSliceable {j : Json} (h : isSliceable j = true) (n : Nat) :
    ∃ s, pySlice j n = Except.ok s := by
  cases j with
  | arr xs => exact ⟨_, rfl⟩
  | str s => exact ⟨_, rfl⟩
  | null => simp [isSliceable] at h
  | bool b => simp [isSliceable] at h
  | num m => simp [isSliceable] at h
  | obj f => simp [isSliceable] at h

/-- `_fetch_product_data` always returns a dict: the `data.get("count", 0)`
evaluated inside the `try` (line 129) sends every non-dict 200 body to the
empty sample, and every other outcome is the empty sample by construction. -/
theorem fetch_product_data_isObj (t : Transport) :
    isObj (_fetch_product_data t) = true := by
  cases t with
  | error e => rfl
  | ok r =>
    obtain ⟨st, body⟩ := r
    cases hb : (st == 200) with
    | false => simp [_fetch_product_data, hb, emptyProductSample, isObj]
    | true =>
      cases body with
      | error e => simp [_fetch_product_data, hb, emptyProductSample, isObj]
      | ok data =>
        cases data <;>
          simp [_fetch_product_data, hb, pyGetE, emptyProductSample, isObj]

/-- `_create_index_page` succeeds on every context whose content strategy,
niche configuration and SEO section are dicts and whose three configured
lists are nonempty (with the source's interpolation defaults). -/
theorem create_index_page_ok (vars : TemplateVars)
    (h1 : isObj vars.content_strategy = true)
    (h2 : isObj vars.niche_config = true)
    (h3 : isObj (dictGet vars.niche_config "seo_optimization" (Json.obj [])) = true)
    (h4 : exceptOk (pyIndex0 (dictGet vars.content_strategy "hero_headlines"
      (Json.arr [Json.str "Quality Outdoor Gear"]))) = true)
    (h5 : exceptOk (pyIndex0 (dictGet vars.content_strategy "hero_headlines"
      (Json.arr [Json.str "Gear Up for Adventure"]))) = true)
    (h6 : exceptOk (pyIndex0 (dictGet vars.content_strategy "value_propositions"
      (Json.arr [Json.str "Quality gear at great prices"]))) = true)
    (h7 : exceptOk (pyIndex0 (dictGet vars.content_strategy "primary_ctas"
      (Json.arr [Json.str "Shop Now"]))) = true) :
    ∃ out, _create_index_page vars = Except.ok out := by
  obtain ⟨v1, hv1⟩ := (exceptOk_exists _).mp h4
  obtain ⟨v2, hv2⟩ := (exceptOk_exists _).mp h5
  obtain ⟨v3, hv3⟩ := (exceptOk_exists _).mp h6
  obtain ⟨v4, hv4⟩ := (exceptOk_exists _).mp h7
  simp only [_create_index_page, pyGetE_of_isObj h1, pyGetE_of_isObj h2,
    pyGetE_of_isObj h3, hv1, hv2, hv3, hv4, exceptBind_ok]
  exact ⟨_, rfl⟩

/-- `_create_api_route` succeeds whenever the sample products are sliceable. -/
theorem create_api_route_ok (vars : TemplateVars)
    (h : isSliceable vars.sample_products = true) :
    ∃ out, _create_api_route vars = Except.ok out := by
  obtain ⟨n, hn⟩ := pyLen_ok_of_isSliceable h
  obtain ⟨s3, hs3⟩ := pySlice_ok_of_isSliceable h 3
  simp only [_create_api_route, _apiRouteFallbackCount, _apiRouteFallbackProducts,
    hn, hs3, exceptBind_ok]
  exact ⟨_, rfl⟩

/-- `_create_navigation_component` succeeds whenever the niche configuration
and its `site_config` section are dicts. -/
theorem create_navigation_ok (vars : TemplateVars)
    (h1 : isObj vars.niche_config = true)
    (h2 : isObj (dictGet vars.niche_config "site_config" (Json.obj [])) = true) :
    ∃ out, _create_navigation_component vars = Except.ok out := by
  simp only [_create_navigation_component, pyGetE_of_isObj h1, pyGetE_of_isObj h2,
    exceptBind_ok]
  exact ⟨_, rfl⟩

/-- `_create_global_css` succeeds whenever the colour scheme is a dict. -/
theorem create_global_css_ok (vars : TemplateVars)
    (h : isObj vars.color_scheme = true) :
    ∃ out, _create_global_css vars = Except.ok out := by
  simp only [_create_global_css, pyGetE_of_isObj h, exceptBind_ok]
  exact ⟨_, rfl⟩

/-- `_create_next_config` succeeds whenever the
`niche_config["site_config"]["niche"]` subscript chain is defined. -/
theorem create_next_config_ok (vars : TemplateVars)
    (h : exceptOk (pySub vars.niche_config "site_config" >>= fun sc =>
      pySub sc "niche") = true) :
    ∃ out, _create_next_config vars = Except.ok out := by
  obtain ⟨v, hv⟩ := (exceptOk_exists _).mp h
  cases h1 : pySub vars.niche_config "site_config" with
  | error e => rw [h1, exceptBind_error] at hv; simp at hv
  | ok sc =>
    rw [h1, exceptBind_ok] at hv
    simp only [_create_next_config, h1, hv, exceptBind_ok]
    exact ⟨_, rfl⟩

/-- `_create_env_example` succeeds under the same subscript chain as
`_create_next_config`. -/
theorem create_env_example_ok (vars : TemplateVars)
    (h : exceptOk (pySub vars.niche_config "site_config" >>= fun sc =>
      pySub sc "niche") = true) :
    ∃ out, _create_env_example vars = Except.ok out := by
  obtain ⟨v, hv⟩ := (exceptOk_exists _).mp h
  cases h1 : pySub vars.niche_config "site_config" with
  | error e => rw [h1, exceptBind_error] at hv; simp at hv
  | ok sc =>
    rw [h1, exceptBind_ok] at hv
    simp only [_create_env_example, h1, hv, exceptBind_ok]
    exact ⟨_, rfl⟩

/-- `_create_readme` succeeds whenever the category join chain is defined
and the colour scheme is a dict. -/
theorem create_readme_ok (vars : TemplateVars)
    (hj : exceptOk (pySub vars.niche_config "site_config" >>= fun sc =>
      pySub sc "primary_categories" >>= fun cats => pyJoin ", " cats) = true)
    (hc : isObj vars.color_scheme = true) :
    ∃ out, _create_readme vars = Except.ok out := by
  obtain ⟨v, hv⟩ := (exceptOk_exists _).mp hj
  cases h1 : pySub vars.niche_config "site_config" with
  | error e => rw [h1, exceptBind_error] at hv; simp at hv
  | ok sc =>
    rw [h1, exceptBind_ok] at hv
    cases h2 : pySub sc "primary_categories" with
    | error e => rw [h2, exceptBind_error] at hv; simp at hv
    | ok cats =>
      rw [h2, exceptBind_ok] at hv
      simp only [_create_readme, h1, h2, hv, pyGetE_of_isObj hc, exceptBind_ok]
      exact ⟨_, rfl⟩

/-- `_generate_website_files` succeeds and produces exactly the seventeen
catalog paths whenever the product data is a dict, the niche configuration
is well formed and the product list slices. -/
theorem generate_website_files_ok (project_path brand_name : String)
    (nc pd : Json) (api_url now : String)
    (hpd : isObj pd = true)
    (hwf : wfNicheConfig nc = true)
    (hsl : exceptOk (pySlice (dictGet pd "products" (Json.arr [])) 6) = true) :
    ∃ files, _generate_website_files project_path brand_name nc pd api_url now =
        Except.ok files ∧
      files.map Prod.fst = expectedGeneratedPaths project_path := by
  simp only [wfNicheConfig, Bool.and_eq_true] at hwf
  obtain ⟨⟨⟨⟨⟨⟨⟨⟨⟨⟨⟨w1, w2⟩, w3⟩, w4⟩, w5⟩, w6⟩, w7⟩, w8⟩, w9⟩, w10⟩, w11⟩, w12⟩ := hwf
  obtain ⟨sp, hsp⟩ := (exceptOk_exists _).mp hsl
  have hsp2 : isSliceable sp = true := sliceResult_isSliceable hsp
  simp only [_generate_website_files, pyGetE_of_isObj hpd, pyGetE_of_isObj w1,
    pyGetE_of_isObj w2, hsp, exceptBind_ok]
  set V : TemplateVars := buildTemplateVars brand_name
    (String.mk (format_brand_name brand_name.toList).slug) api_url nc sp
    (dictGet pd "count" (Json.num 0)) now
    (dictGet (dictGet nc "design_config" (Json.obj [])) "color_scheme" (Json.obj []))
    (dictGet nc "content_strategy" (Json.obj [])) with hV
  obtain ⟨o1, ho1⟩ := create_index_page_ok V w4 w1 w5 w7 w8 w9 w10
  obtain ⟨o2, ho2⟩ := create_api_route_ok V hsp2
  obtain ⟨o3, ho3⟩ := create_navigation_ok V w1 w6
  obtain ⟨o4, ho4⟩ := create_global_css_ok V w3
  obtain ⟨o5, ho5⟩ := create_next_config_ok V w11
  obtain ⟨o6, ho6⟩ := create_env_example_ok V w11
  obtain ⟨o7, ho7⟩ := create_readme_ok V w12 w3
  simp only [ho1, ho2, ho3, ho4, ho5, ho6, ho7, exceptBind_ok]
  exact ⟨_, rfl, by simp [expectedGeneratedPaths]⟩

/-- C1, counterexample: with server validation and configuration loading
both succeeding, `generate_affiliate_site` can still fail, so "always
completes with success=true" does not hold as stated.  At `envBadProducts`
the product fetch returns 200 with the dict body
`x7b"count": 1, "products": 7x7d`: it passes `_fetch_product_data`'s own
guard and is returned unchanged, and the generator's slice
`product_data.get("products", [])[:6]` (line 158) raises `TypeError`.  At
`envBadConfig` the fetch is healthy but the loaded configuration declares
an empty `hero_headlines` list, and `_create_index_page`'s `[0]`
(line 303) raises `IndexError`.  Both exceptions reach the `except` of
`generate_affiliate_site`, which returns `success = False`. -/
theorem generate_affiliate_site_counterexample :
    (validate_existing_server "http://s" envBadProducts.health
        envBadProducts.products1 envBadProducts.sites = some true ∧
      envBadProducts.nicheConfigs "outdoor-adventure" = some cfgOutdoor ∧
      wfNicheConfig cfgOutdoor = true ∧
      _fetch_product_data envBadProducts.products2 =
        Json.obj [("count", Json.num 1), ("products", Json.num 7)] ∧
      (generate_affiliate_site envBadProducts "Adventure Gear Pro"
        "outdoor-adventure" "aud" "http://s").success = false ∧
      (generate_affiliate_site envBadProducts "Adventure Gear Pro"
        "outdoor-adventure" "aud" "http://s").error =
          some "TypeError: not subscriptable") ∧
    (validate_existing_server "http://s" envBadConfig.health
        envBadConfig.products1 envBadConfig.sites = some true ∧
      envBadConfig.nicheConfigs "outdoor-adventure" = some cfgBadHeadlines ∧
      (generate_affiliate_site envBadConfig "Adventure Gear Pro"
        "outdoor-adventure" "aud" "http://s").success = false ∧
      (generate_affiliate_site envBadConfig "Adventure Gear Pro"
        "outdoor-adventure" "aud" "http://s").error =
          some "IndexError: list index out of range") :=
  ⟨⟨rfl, rfl, rfl, rfl, rfl, rfl⟩, rfl, rfl, rfl, rfl⟩

/-- C1: amended.  The fetch itself is soft-fail exactly as claimed: a
transport error, a non-200 status, an unparseable body and a non-dict 200
body are each replaced by the empty sample `x7bcount: 0, products: []x7d`
(last four conjuncts).  And once server validation and configuration
loading succeed, generation completes with `success = true` and the full
seventeen-path file tree — PROVIDED the loaded configuration is well formed
(`wfNicheConfig`) and the fetched dict's `products` value slices; the empty
sample satisfies that slicing proviso (final conjunct), so every
fetch-failure run does succeed.  Without the proviso the claim's "always"
is false: see the counterexample. -/
theorem generate_affiliate_site_wellformed_success :
    (∀ (env : GenEnv) (brand_name niche target_audience api_url : String) (nc : Json),
      validate_existing_server api_url env.health env.products1 env.sites = some true →
      env.nicheConfigs niche = some nc →
      wfNicheConfig nc = true →
      exceptOk (pySlice (dictGet (_fetch_product_data env.products2) "products"
        (Json.arr [])) 6) = true →
      (generate_affiliate_site env brand_name niche target_audience api_url).success
          = true ∧
        (generate_affiliate_site env brand_name niche target_audience
            api_url).generated_files =
          some (expectedGeneratedPaths
            ("./generated/" ++ String.mk (format_brand_name brand_name.toList).slug))) ∧
    (∀ e, _fetch_product_data (Except.error e) = emptyProductSample) ∧
    (∀ st body, st ≠ 200 →
      _fetch_product_data (Except.ok ⟨st, body⟩) = emptyProductSample) ∧
    (∀ st e, _fetch_product_data (Except.ok ⟨st, Except.error e⟩) = emptyProductSample) ∧
    (∀ data, isObj data = false →
      _fetch_product_data (Except.ok ⟨200, Except.ok data⟩) = emptyProductSample) ∧
    exceptOk (pySlice (dictGet emptyProductSample "products" (Json.arr [])) 6) = true := by
  refine ⟨?_, ?_, ?_, ?_, ?_, rfl⟩
  · intro env brand_name niche target_audience api_url nc hval hcfg hwf hsl
    have hpd : isObj (_fetch_product_data env.products2) = true :=
      fetch_product_data_isObj env.products2
    obtain ⟨files, hfeq, hfmap⟩ :=
      generate_website_files_ok
        ("./generated/" ++ String.mk (format_brand_name brand_name.toList).slug)
        brand_name nc (_fetch_product_data env.products2) api_url env.now hpd hwf hsl
    obtain ⟨sp, hsp⟩ := (exceptOk_exists _).mp hsl
    obtain ⟨cnt, hcnt⟩ := pyLen_ok_of_isSliceable (sliceArg_isSliceable hsp)
    have hbody : generateAffiliateSiteBody env brand_name niche api_url =
        Except.ok ("./generated/" ++ String.mk (format_brand_name brand_name.toList).slug,
          files, cnt) := by
      simp only [generateAffiliateSiteBody, hval, hcfg, exceptPure,
        pyGetE_of_isObj hpd, hfeq, hcnt, exceptBind_ok]
      rfl
    constructor
    · simp only [generate_affiliate_site, hbody]
    · simp only [generate_affiliate_site, hbody, hfmap]
  · intro e
    rfl
  · intro st body hst
    have hb : (st == 200) = false := beq_eq_false_iff_ne.mpr hst
    cases body with
    | error e => simp [_fetch_product_data, hb]
    | ok data => simp [_fetch_product_data, hb]
  · intro st e
    cases hb : (st == 200) with
    | true => simp [_fetch_product_data, hb]
    | false => simp [_fetch_product_data, hb]
  · intro data hd
    cases data with
    | obj f => simp [isObj] at hd
    | null => rfl
    | bool b => rfl
    | num n => rfl
    | str s => rfl
    | arr xs => rfl

/-- Witness for C1: at the timed-out fetch `envFetchTimeout` and at the
non-dict 200 body `envNonDictBody` every hypothesis holds concretely and
generation succeeds with the full seventeen-path catalog. -/
theorem generate_affiliate_site_wellformed_success_witness :
    ((generate_affiliate_site envFetchTimeout "Adventure Gear Pro"
        "outdoor-adventure" "aud" "http://s").success = true ∧
      (generate_affiliate_site envFetchTimeout "Adventure Gear Pro"
          "outdoor-adventure" "aud" "http://s").generated_files =
        some (expectedGeneratedPaths ("./generated/" ++
          String.mk (format_brand_name "Adventure Gear Pro".toList).slug))) ∧
    ((generate_affiliate_site envNonDictBody "Adventure Gear Pro"
        "outdoor-adventure" "aud" "http://s").success = true ∧
      (generate_affiliate_site envNonDictBody "Adventure Gear Pro"
          "outdoor-adventure" "aud" "http://s").generated_files =
        some (expectedGeneratedPaths ("./generated/" ++
          String.mk (format_brand_name "Adventure Gear Pro".toList).slug))) :=
  ⟨generate_affiliate_site_wellformed_success.1 envFetchTimeout "Adventure Gear Pro"
      "outdoor-adventure" "aud" "http://s" cfgOutdoor rfl rfl (by decide) (by decide),
    generate_affiliate_site_wellformed_success.1 envNonDictBody "Adventure Gear Pro"
      "outdoor-adventure" "aud" "http://s" cfgOutdoor rfl rfl (by decide) (by decide)⟩
